import Mathlib

/-!
# Verification of the Sendly newsletter pipeline

Shallow embedding of the scheduling / delivery pipeline of the
AI-Newsletter-SaaS repository, together with proofs of the behavioural
claims about it.

Conventions used throughout the embedding:

* Machine time is modelled as `Int` milliseconds since the Unix epoch
  (the value of JavaScript `Date.getTime()`).  The JavaScript local
  timezone is modelled as a fixed offset `tz` in milliseconds east of
  UTC (daylight-saving transitions are not modelled); `setHours(9,0,0,0)`
  then becomes `setHours9 tz t` below.
* External vendor calls (Supabase reads, the News API `fetch`, Resend,
  Inngest `send`) are modelled as explicit inputs/outputs: query results
  and per-topic HTTP outcomes are parameters, and emitted events /
  emails are returned in lists.
* ISO-8601 timestamp strings (`toISOString`) are represented by the
  underlying millisecond value they denote; locale date strings
  (`toLocaleDateString`) are an opaque `String` parameter.
* JavaScript `undefined`-able values are `Option`; the `x || d`
  defaulting idiom (which also replaces the empty string) is `jsOr`.
-/

/-- Milliseconds in one day. -/
def dayMs : Int := 24 * 60 * 60 * 1000

/-- `d.setHours(9, 0, 0, 0)` on a `Date` holding UTC-milliseconds `t`,
in a local timezone that is a fixed offset `tz` milliseconds east of
UTC: midnight of the current local day, plus nine hours. -/
def setHours9 (tz t : Int) : Int :=
  dayMs * ((t + tz).fdiv dayMs) - tz + 9 * 60 * 60 * 1000

/-- JavaScript `x || d` for an optional string `x`: `undefined` and the
empty string both fall back to the default. -/
def jsOr (x : Option String) (d : String) : String :=
  match x with
  | none => d
  | some s => if s = "" then d else s

/-- JavaScript template interpolation of a possibly-`undefined` string:
`undefined` prints as the literal text `"undefined"`. -/
def optStr (x : Option String) : String :=
  x.getD "undefined"

/-- A normalized article as produced by the Article Source Adapter
(`NewsArticle` in `src/lib/utils/news.ts`). -/
structure NewsArticle where
  title : String
  url : String
  description : String
  publishedAt : Option String
  author : Option String
  source : Option String
  urlToImage : Option String
  content : Option String
deriving DecidableEq, Repr

/-- A raw article as delivered by the News API (`NewsApiResponse`
element); every field may be absent in practice. -/
structure RawArticle where
  title : Option String
  url : Option String
  description : Option String
  publishedAt : Option String
  author : Option String
  sourceName : Option String
  urlToImage : Option String
  content : Option String
deriving DecidableEq, Repr

/-- A `newsletter.schedule` event as passed to `inngest.send`:
the event name, the `data` payload, and the optional `ts` delivery
timestamp.  Absent payload fields are `none`. -/
structure SentEvent where
  name : String
  userId : String
  email : String
  categories : List String
  frequency : Option String
  scheduledFor : Option Int
  isTest : Option Bool
  ts : Option Int
deriving DecidableEq, Repr

/-- The subscriber-preference columns read back for rescheduling
(`select("categories, frequency, email")`). -/
structure PrefRecord where
  categories : List String
  frequency : String
  email : String
deriving DecidableEq, Repr

/-- A stored `user_preferences` row (the fields written by the
preference API). -/
structure StoredPrefs where
  categories : List String
  frequency : String
  email : Option String
  is_active : Bool
deriving DecidableEq, Repr

/-- The preference store: rows keyed by `user_id` (at most one row per
user, maintained by `upsert ... onConflict user_id`). -/
abbrev PrefStore := List (String × StoredPrefs)

/-- `supabase.from("user_preferences").upsert(row, onConflict: "user_id")`. -/
def upsertPrefs (store : PrefStore) (uid : String) (row : StoredPrefs) : PrefStore :=
  if store.any (fun kv => kv.1 = uid) then
    store.map (fun kv => if kv.1 = uid then (uid, row) else kv)
  else
    (uid, row) :: store

/-- The `categories` field of a JSON request body, as discriminated by
`!categories || !Array.isArray(categories)`: it can be absent (or
otherwise falsy), present but not an array, or an actual array. -/
inductive CategoriesField where
  | missing
  | nonArrayTruthy
  | arr (cats : List String)
deriving DecidableEq, Repr

/-- The guard `!categories || !Array.isArray(categories) || categories.length === 0`. -/
def categoriesInvalid : CategoriesField → Bool
  | .missing => true
  | .nonArrayTruthy => true
  | .arr cats => cats.isEmpty

/-- The guard `!frequency || !["daily", "weekly", "biweekly"].includes(frequency)`. -/
def frequencyInvalid : Option String → Bool
  | none => true
  | some s => s = "" || !(s = "daily" || s = "weekly" || s = "biweekly")

/-- The guard `!email || !email.includes("@")`. -/
def emailInvalid : Option String → Bool
  | none => true
  | some s => s = "" || !(s.contains '@')

/-- A JSON body posted to the preference API. -/
structure PostBody where
  categories : CategoriesField
  frequency : Option String
  email : Option String
deriving DecidableEq, Repr

/-- An HTTP response from a route handler: the status code and the
`error` field of the JSON body (absent on success). -/
structure ApiResponse where
  status : Nat
  errorMsg : Option String
deriving DecidableEq, Repr

/-!
## Article Source Adapter, plain revision (`src/src/lib/utils/news.ts`)

`fetchArticles(categories)`: one request per category; any HTTP error,
API-level error or thrown exception yields `[]` for that category; the
aggregate is the concatenation, replaced by a fixed fallback article
when empty.  The per-category HTTP interaction is a parameter
(`FetchOutcome`).
-/

/-- The observable outcome of one News API request for one category. -/
inductive FetchOutcome where
  /-- `!response.ok` (any non-2xx status, including 429 and 5xx). -/
  | httpError (status : Nat)
  /-- `response.ok` but `data.status === "error"`. -/
  | apiError
  /-- `fetch` (or body parsing) threw. -/
  | exn
  /-- `response.ok` with `data.articles` as listed. -/
  | success (articles : List RawArticle)

namespace News

/-- Matches `^\d+\.\d+\.\d+` at the start of the character list. -/
def versionNumAt (cs : List Char) : Bool :=
  let d1 := cs.takeWhile (fun c => c.isDigit)
  let r1 := cs.dropWhile (fun c => c.isDigit)
  match d1, r1 with
  | [], _ => false
  | _ :: _, '.' :: r2 =>
    let d2 := r2.takeWhile (fun c => c.isDigit)
    let r3 := r2.dropWhile (fun c => c.isDigit)
    match d2, r3 with
    | [], _ => false
    | _ :: _, '.' :: r4 => !(r4.takeWhile (fun c => c.isDigit)).isEmpty
    | _, _ => false
  | _, _ => false

/-- The `skipPatterns` filter of `news.ts`: drop version numbers and
release/update/version/changelog/patch/hotfix announcements, matched
against the lower-cased title (`article.title?.toLowerCase() || ""`). -/
def keepTitle (a : RawArticle) : Bool :=
  let title := ((a.title.getD "").toLower)
  !(versionNumAt title.toList ||
    title.startsWith "tf-nightly" ||
    title.startsWith "release" ||
    title.startsWith "update" ||
    title.startsWith "version" ||
    title.startsWith "changelog" ||
    title.startsWith "patch" ||
    title.startsWith "hotfix")

/-- The field normalization of `news.ts`: `article.f || default`. -/
def normalize (a : RawArticle) : NewsArticle :=
  { title := jsOr a.title "No title"
    url := jsOr a.url "#"
    description := jsOr a.description "No description available"
    publishedAt := some (jsOr a.publishedAt "No published date available")
    author := some (jsOr a.author "No author available")
    source := some (jsOr a.sourceName "No source available")
    urlToImage := some (jsOr a.urlToImage "No image available")
    content := some (jsOr a.content "No content available") }

/-- One category of `news.ts`'s `fetchArticles`: on any failure the
category yields `[]`; on success, `data.articles.slice(0, 10)` filtered
by `keepTitle`, then `slice(0, 5)`, then normalized. -/
def processCategory : FetchOutcome → List NewsArticle
  | .httpError _ => []
  | .apiError => []
  | .exn => []
  | .success arts => (((arts.take 10).filter keepTitle).take 5).map normalize

/-- The fixed fallback article returned when no articles were found;
`isoNow` is `new Date().toISOString()`. -/
def fallbackArticle (isoNow : String) : NewsArticle :=
  { title := "AI Newsletter Service"
    url := "#"
    description := "Welcome to your personalized AI newsletter! We're currently setting up your news feed."
    publishedAt := some isoNow
    author := some "AI Newsletter"
    source := some "AI Newsletter"
    urlToImage := some ""
    content := some "Your newsletter is being prepared with the latest news from your selected categories." }

/-- `fetchArticles(categories)` of `news.ts`: per-category results
concatenated, with the fallback article substituted when the aggregate
is empty. -/
def fetchArticles (categories : List String) (outcomes : String → FetchOutcome)
    (isoNow : String) : List NewsArticle :=
  let allArticles := (categories.map (fun c => processCategory (outcomes c))).flatten
  if allArticles.length = 0 then [fallbackArticle isoNow] else allArticles

theorem fetchArticles_ne_nil (categories : List String) (outcomes : String → FetchOutcome)
    (isoNow : String) : fetchArticles categories outcomes isoNow ≠ [] := by
  unfold fetchArticles
  by_cases h : ((categories.map (fun c => processCategory (outcomes c))).flatten).length = 0
  · simp [h]
  · simp only [h, if_false]
    intro hnil
    rw [hnil] at h
    simp at h

theorem fetchArticles_of_empty (categories : List String) (outcomes : String → FetchOutcome)
    (isoNow : String)
    (h : (categories.map (fun c => processCategory (outcomes c))).flatten = []) :
    fetchArticles categories outcomes isoNow = [fallbackArticle isoNow] := by
  unfold fetchArticles
  simp [h]

end News

/-!
## Article Source Adapter, cached revision (`src/unnamed/part_009`)

`fetchArticles(categories, articlesPerCategory, maxConcurrentRequests)`:
input validation, batching by `maxConcurrentRequests`, a process-local
cache keyed by `(category, articlesPerCategory)` with a five-minute
time-to-live, per-category failure isolation (429 / 5xx / other HTTP
errors / API errors / exceptions all yield `[]` for that category and
are not cached), and per-article cleaning.

Modelling notes, in addition to the file-level conventions:
* The cache key is the string `category + "-" + articlesPerCategory`;
  it is modelled as the pair `(category, articlesPerCategory)`, which
  distinguishes exactly the same keys within and across calls.
* Within one batch, every task checks the cache synchronously before
  the first `await`, and all cache writes land before the next batch
  starts; the model therefore reads the whole batch against the cache
  as of the start of the batch and applies the batch's writes at its
  end.  `Date.now()` is read as a single per-call instant `env.now`.
* The WHATWG `URL` parser behind `validateAndCleanUrl` is approximated:
  a string parses with an `http:`/`https:` protocol iff it starts with
  that scheme, and `toString()` normalization is elided.
-/

namespace NewsCached

/-- One entry of `requestCache`. -/
structure CacheEntry where
  data : List NewsArticle
  timestamp : Int
deriving DecidableEq, Repr

/-- The process-local `requestCache`, most recent writes first. -/
abbrev Cache := List ((String × Nat) × CacheEntry)

/-- `requestCache.get(key)`. -/
def cacheGet (c : Cache) (k : String × Nat) : Option CacheEntry :=
  match c with
  | [] => none
  | kv :: rest => if kv.1 = k then some kv.2 else cacheGet rest k

/-- `CACHE_DURATION = 5 * 60 * 1000`. -/
def CACHE_DURATION : Int := 5 * 60 * 1000

/-- `cleanText`: remove ASCII/Latin-1 control characters. -/
def isCtrl (c : Char) : Bool :=
  c.val ≤ 0x1F || (0x7F ≤ c.val && c.val ≤ 0x9F)

/-- JavaScript `\s` on the characters that survive control-character
removal: the space characters recognised by the regex engine. -/
def isJsSpace (c : Char) : Bool :=
  c = ' ' || c.val = 0xA0 || c.val = 0x1680 ||
  (0x2000 ≤ c.val && c.val ≤ 0x200A) ||
  c.val = 0x2028 || c.val = 0x2029 || c.val = 0x202F ||
  c.val = 0x205F || c.val = 0x3000 || c.val = 0xFEFF

/-- Split a character list into maximal runs of non-space characters. -/
def wordsAux : List Char → List Char → List (List Char)
  | [], acc => if acc.isEmpty then [] else [acc.reverse]
  | c :: rest, acc =>
    if isJsSpace c then
      if acc.isEmpty then wordsAux rest [] else acc.reverse :: wordsAux rest []
    else
      wordsAux rest (c :: acc)

/-- `cleanText(text)`: `""` for a missing/empty input; otherwise strip
control characters, collapse whitespace runs to single spaces, trim. -/
def cleanText (t : Option String) : String :=
  match t with
  | none => ""
  | some s =>
    if s = "" then ""
    else
      String.intercalate " "
        ((wordsAux ((s.toList).filter (fun c => !(isCtrl c))) []).map
          (fun w => String.mk w))

/-- `validateAndCleanUrl(url)` (URL parsing approximated as above). -/
def validateAndCleanUrl (u : Option String) : String :=
  match u with
  | none => "#"
  | some s =>
    if s = "" || s.trim = "" then "#"
    else if s.startsWith "http://" || s.startsWith "https://" then s
    else "#"

/-- The per-article cleaning step of `part_009`. -/
def cleanArticle (a : RawArticle) : NewsArticle :=
  { title := jsOr (some (cleanText a.title)) "No title"
    url := validateAndCleanUrl a.url
    description := jsOr (some (cleanText a.description)) "No description"
    publishedAt := a.publishedAt
    author := some (cleanText a.author)
    source := a.sourceName
    urlToImage := some (validateAndCleanUrl a.urlToImage)
    content := some (cleanText a.content) }

/-- `data.articles.slice(0, articlesPerCategory)`, cleaned, then
filtered of articles whose required fields degraded to placeholders. -/
def processArticles (perCat : Nat) (arts : List RawArticle) : List NewsArticle :=
  ((arts.take perCat).map cleanArticle).filter
    (fun a => a.title ≠ "No title" && a.url ≠ "#" && a.description ≠ "No description")

/-- The observable outcome of one News API request in `part_009`,
mirroring the branches of its error handling. -/
inductive Outcome where
  /-- HTTP 429: wait 60 seconds, return `[]`. -/
  | rateLimited
  /-- HTTP status ≥ 500: return `[]`. -/
  | serverError (status : Nat)
  /-- any other `!response.ok` status: return `[]`. -/
  | otherHttpError (status : Nat)
  /-- `response.ok` but `data.status !== "ok"`: return `[]`. -/
  | apiNotOk
  /-- the request threw: return `[]`. -/
  | exn
  /-- `response.ok` with `data.status === "ok"` and these articles. -/
  | success (articles : List RawArticle)

/-- Every non-success outcome. -/
def Outcome.isFailure : Outcome → Bool
  | .success _ => false
  | _ => true

/-- The environment of one `fetchArticles` call: whether `NEWS_API_KEY`
is set, the outcome the News API would give each category, and the
call's `Date.now()`. -/
structure FetchEnv where
  hasApiKey : Bool
  outcomes : String → Outcome
  now : Int

/-- Is the cached entry for `k` fresh at `env.now`
(`Date.now() - cached.timestamp < CACHE_DURATION`)? -/
def freshHitB (env : FetchEnv) (c : Cache) (k : String × Nat) : Bool :=
  match cacheGet c k with
  | some e => env.now - e.timestamp < CACHE_DURATION
  | none => false

/-- One category of a batch, read against the batch-start cache `c`:
the articles contributed, the cache writes performed, and the network
requests issued (by category name). -/
def processCat (env : FetchEnv) (perCat : Nat) (c : Cache) (cat : String) :
    List NewsArticle × List ((String × Nat) × CacheEntry) × List String :=
  match cacheGet c (cat, perCat) with
  | some e =>
    if env.now - e.timestamp < CACHE_DURATION then
      (e.data, [], [])
    else
      match env.outcomes cat with
      | .success arts =>
        let articles := processArticles perCat arts
        (articles, [((cat, perCat), ⟨articles, env.now⟩)], [cat])
      | _ => ([], [], [cat])
  | none =>
    match env.outcomes cat with
    | .success arts =>
      let articles := processArticles perCat arts
      (articles, [((cat, perCat), ⟨articles, env.now⟩)], [cat])
    | _ => ([], [], [cat])

/-- The articles a category contributes, given the cache as of the
start of its batch. -/
def contrib (env : FetchEnv) (perCat : Nat) (c : Cache) (cat : String) :
    List NewsArticle :=
  (processCat env perCat c cat).1

/-- One batch: all categories against the batch-start cache, results
concatenated, writes and requests collected. -/
def processBatch (env : FetchEnv) (perCat : Nat) (c : Cache) (b : List String) :
    List NewsArticle × List ((String × Nat) × CacheEntry) × List String :=
  ((b.map (fun cat => (processCat env perCat c cat).1)).flatten,
   (b.map (fun cat => (processCat env perCat c cat).2.1)).flatten,
   (b.map (fun cat => (processCat env perCat c cat).2.2)).flatten)

/-- The batch loop: batches in order, each batch's cache writes applied
before the next batch. -/
def runBatches (env : FetchEnv) (perCat : Nat) :
    List (List String) → Cache → List NewsArticle × Cache × List String
  | [], c => ([], c, [])
  | b :: bs, c =>
    let step := processBatch env perCat c b
    let rest := runBatches env perCat bs (step.2.1 ++ c)
    (step.1 ++ rest.1, rest.2.1, step.2.2 ++ rest.2.2)

/-- `categories.slice(i, i + maxConcurrent)` chunking, fuelled to stay
structurally recursive. -/
def chunkAux (n : Nat) : Nat → List String → List (List String)
  | 0, _ => []
  | _, [] => []
  | fuel + 1, x :: xs => (x :: xs.take (n - 1)) :: chunkAux n fuel (xs.drop (n - 1))

/-- The `for (i = 0; i < categories.length; i += maxConcurrentRequests)`
batching of `part_009` (for `n ≥ 1`). -/
def chunkList (n : Nat) (l : List String) : List (List String) :=
  chunkAux n l.length l

/-- `fetchArticles` of `part_009`: guards, then the batch loop.  The
result carries the articles, the cache after the call, and the list of
network requests issued. -/
def fetchArticles (categories : List String) (articlesPerCategory maxConcurrentRequests : Nat)
    (env : FetchEnv) (cache : Cache) :
    Except String (List NewsArticle × Cache × List String) :=
  if env.hasApiKey = false then
    .error "NEWS_API_KEY environment variable is required"
  else if categories.isEmpty then
    .ok ([], cache, [])
  else if articlesPerCategory < 1 || 20 < articlesPerCategory then
    .error "articlesPerCategory must be between 1 and 20"
  else if maxConcurrentRequests < 1 || 5 < maxConcurrentRequests then
    .error "maxConcurrentRequests must be between 1 and 5"
  else
    .ok (runBatches env articlesPerCategory (chunkList maxConcurrentRequests categories) cache)

end NewsCached

namespace NewsCached

theorem cacheGet_append (l c : Cache) (k : String × Nat) :
    cacheGet (l ++ c) k =
      match cacheGet l k with
      | some e => some e
      | none => cacheGet c k := by
  induction l with
  | nil => simp [cacheGet]
  | cons kv rest ih =>
    by_cases h : kv.1 = k
    · simp [cacheGet, h]
    · simp [cacheGet, h, ih]

theorem cacheGet_some_mem {l : Cache} {k : String × Nat} {e : CacheEntry}
    (h : cacheGet l k = some e) : (k, e) ∈ l := by
  induction l with
  | nil => simp [cacheGet] at h
  | cons kv rest ih =>
    obtain ⟨k', e'⟩ := kv
    by_cases hk : k' = k
    · simp only [cacheGet, hk, if_pos] at h
      cases h
      rw [hk]
      exact List.mem_cons_self _ _
    · simp only [cacheGet, hk, ite_false] at h
      exact List.mem_cons_of_mem _ (ih h)

theorem cacheGet_none_of_forall {l : Cache} {k : String × Nat}
    (h : ∀ e : CacheEntry, (k, e) ∉ l) : cacheGet l k = none := by
  induction l with
  | nil => rfl
  | cons kv rest ih =>
    obtain ⟨k', e'⟩ := kv
    have hk : k' ≠ k := by
      intro he
      exact h e' (by rw [← he]; exact List.mem_cons_self _ _)
    simp only [cacheGet, hk, ite_false]
    exact ih (fun e he => h e (List.mem_cons_of_mem _ he))

theorem cacheGet_of_mem_unique {l : Cache} {k : String × Nat} {v : CacheEntry}
    (hmem : (k, v) ∈ l) (huniq : ∀ e : CacheEntry, (k, e) ∈ l → e = v) :
    cacheGet l k = some v := by
  induction l with
  | nil => simp at hmem
  | cons kv rest ih =>
    obtain ⟨k', e'⟩ := kv
    by_cases hk : k' = k
    · simp only [cacheGet, hk, if_pos]
      have : (k, e') ∈ (k', e') :: rest := by
        rw [hk]
        exact List.mem_cons_self _ _
      rw [huniq e' this]
    · simp only [cacheGet, hk, ite_false]
      rcases List.mem_cons.mp hmem with h | h
      · exact absurd (congrArg Prod.fst h.symm) hk
      · exact ih h (fun e he => huniq e (List.mem_cons_of_mem _ he))

theorem freshHitB_congr {env : FetchEnv} {c c' : Cache} {k : String × Nat}
    (h : cacheGet c k = cacheGet c' k) : freshHitB env c k = freshHitB env c' k := by
  unfold freshHitB
  rw [h]

theorem cache_duration_pos : (0 : Int) < CACHE_DURATION := by decide

end NewsCached


namespace NewsCached

theorem processCat_of_fresh {env : FetchEnv} {perCat : Nat} {c : Cache} {cat : String}
    (h : freshHitB env c (cat, perCat) = true) :
    ∃ e : CacheEntry, cacheGet c (cat, perCat) = some e ∧
      processCat env perCat c cat = (e.data, [], []) := by
  cases hcg : cacheGet c (cat, perCat) with
  | none => unfold freshHitB at h; rw [hcg] at h; simp at h
  | some e =>
    unfold freshHitB at h
    rw [hcg] at h
    have ht : env.now - e.timestamp < CACHE_DURATION := of_decide_eq_true h
    refine ⟨e, rfl, ?_⟩
    simp [processCat, hcg, ht]

theorem processCat_of_notFresh_success {env : FetchEnv} {perCat : Nat} {c : Cache}
    {cat : String} {arts : List RawArticle}
    (h : freshHitB env c (cat, perCat) = false) (hs : env.outcomes cat = .success arts) :
    processCat env perCat c cat =
      (processArticles perCat arts,
       [((cat, perCat), ⟨processArticles perCat arts, env.now⟩)], [cat]) := by
  cases hcg : cacheGet c (cat, perCat) with
  | none => simp [processCat, hcg, hs]
  | some e =>
    unfold freshHitB at h
    rw [hcg] at h
    have ht : ¬ (env.now - e.timestamp < CACHE_DURATION) := of_decide_eq_false h
    simp [processCat, hcg, hs, ht]

theorem processCat_of_notFresh_failure {env : FetchEnv} {perCat : Nat} {c : Cache}
    {cat : String}
    (h : freshHitB env c (cat, perCat) = false) (hf : (env.outcomes cat).isFailure = true) :
    processCat env perCat c cat = ([], [], [cat]) := by
  cases hcg : cacheGet c (cat, perCat) with
  | none =>
    cases ho : env.outcomes cat <;> rw [ho] at hf <;>
      simp_all [processCat, hcg, Outcome.isFailure]
  | some e =>
    unfold freshHitB at h
    rw [hcg] at h
    have ht : ¬ (env.now - e.timestamp < CACHE_DURATION) := of_decide_eq_false h
    cases ho : env.outcomes cat <;> rw [ho] at hf <;>
      simp_all [processCat, hcg, Outcome.isFailure]

theorem mem_writes {env : FetchEnv} {perCat : Nat} {c : Cache} {cat : String}
    {kv : (String × Nat) × CacheEntry}
    (hkv : kv ∈ (processCat env perCat c cat).2.1) :
    ∃ arts : List RawArticle,
      kv = ((cat, perCat), ⟨processArticles perCat arts, env.now⟩) ∧
      env.outcomes cat = Outcome.success arts ∧
      freshHitB env c (cat, perCat) = false := by
  cases hfr : freshHitB env c (cat, perCat) with
  | true =>
    obtain ⟨e, _, hpc⟩ := processCat_of_fresh hfr
    rw [hpc] at hkv
    simp at hkv
  | false =>
    cases ho : env.outcomes cat with
    | success arts =>
      rw [processCat_of_notFresh_success hfr ho] at hkv
      exact ⟨arts, by simpa using hkv, rfl, rfl⟩
    | rateLimited =>
      rw [processCat_of_notFresh_failure hfr (by rw [ho]; rfl)] at hkv; simp at hkv
    | serverError s =>
      rw [processCat_of_notFresh_failure hfr (by rw [ho]; rfl)] at hkv; simp at hkv
    | otherHttpError s =>
      rw [processCat_of_notFresh_failure hfr (by rw [ho]; rfl)] at hkv; simp at hkv
    | apiNotOk =>
      rw [processCat_of_notFresh_failure hfr (by rw [ho]; rfl)] at hkv; simp at hkv
    | exn =>
      rw [processCat_of_notFresh_failure hfr (by rw [ho]; rfl)] at hkv; simp at hkv

theorem mem_reqs {env : FetchEnv} {perCat : Nat} {c : Cache} {cat : String} {q : String}
    (hq : q ∈ (processCat env perCat c cat).2.2) :
    q = cat ∧ freshHitB env c (cat, perCat) = false := by
  cases hfr : freshHitB env c (cat, perCat) with
  | true =>
    obtain ⟨e, _, hpc⟩ := processCat_of_fresh hfr
    rw [hpc] at hq
    simp at hq
  | false =>
    cases ho : env.outcomes cat with
    | success arts =>
      rw [processCat_of_notFresh_success hfr ho] at hq
      exact ⟨by simpa using hq, rfl⟩
    | rateLimited =>
      rw [processCat_of_notFresh_failure hfr (by rw [ho]; rfl)] at hq
      exact ⟨by simpa using hq, rfl⟩
    | serverError s =>
      rw [processCat_of_notFresh_failure hfr (by rw [ho]; rfl)] at hq
      exact ⟨by simpa using hq, rfl⟩
    | otherHttpError s =>
      rw [processCat_of_notFresh_failure hfr (by rw [ho]; rfl)] at hq
      exact ⟨by simpa using hq, rfl⟩
    | apiNotOk =>
      rw [processCat_of_notFresh_failure hfr (by rw [ho]; rfl)] at hq
      exact ⟨by simpa using hq, rfl⟩
    | exn =>
      rw [processCat_of_notFresh_failure hfr (by rw [ho]; rfl)] at hq
      exact ⟨by simpa using hq, rfl⟩

theorem reqs_of_notFresh {env : FetchEnv} {perCat : Nat} {c : Cache} {cat : String}
    (h : freshHitB env c (cat, perCat) = false) :
    (processCat env perCat c cat).2.2 = [cat] := by
  cases ho : env.outcomes cat with
  | success arts => rw [processCat_of_notFresh_success h ho]
  | rateLimited => rw [processCat_of_notFresh_failure h (by rw [ho]; rfl)]
  | serverError s => rw [processCat_of_notFresh_failure h (by rw [ho]; rfl)]
  | otherHttpError s => rw [processCat_of_notFresh_failure h (by rw [ho]; rfl)]
  | apiNotOk => rw [processCat_of_notFresh_failure h (by rw [ho]; rfl)]
  | exn => rw [processCat_of_notFresh_failure h (by rw [ho]; rfl)]

end NewsCached

namespace NewsCached

theorem processBatch_arts (env : FetchEnv) (perCat : Nat) (c : Cache) (b : List String) :
    (processBatch env perCat c b).1 =
      (b.map (fun cat => (processCat env perCat c cat).1)).flatten := rfl

theorem processBatch_writes (env : FetchEnv) (perCat : Nat) (c : Cache) (b : List String) :
    (processBatch env perCat c b).2.1 =
      (b.map (fun cat => (processCat env perCat c cat).2.1)).flatten := rfl

theorem processBatch_reqs (env : FetchEnv) (perCat : Nat) (c : Cache) (b : List String) :
    (processBatch env perCat c b).2.2 =
      (b.map (fun cat => (processCat env perCat c cat).2.2)).flatten := rfl

theorem runBatches_nil (env : FetchEnv) (perCat : Nat) (c : Cache) :
    runBatches env perCat [] c = ([], c, []) := rfl

theorem runBatches_cons (env : FetchEnv) (perCat : Nat) (b : List String)
    (bs : List (List String)) (c : Cache) :
    runBatches env perCat (b :: bs) c =
      ((processBatch env perCat c b).1 ++
        (runBatches env perCat bs ((processBatch env perCat c b).2.1 ++ c)).1,
       (runBatches env perCat bs ((processBatch env perCat c b).2.1 ++ c)).2.1,
       (processBatch env perCat c b).2.2 ++
        (runBatches env perCat bs ((processBatch env perCat c b).2.1 ++ c)).2.2) := rfl

/-- The cache seen by a later batch relates to the call-start cache
`cache0`: every key either still holds its call-start entry, or holds a
fresh entry just written for a category whose fetch succeeded on a
call-start cache miss. -/
def GoodCache (env : FetchEnv) (perCat : Nat) (cache0 c : Cache) : Prop :=
  ∀ k, cacheGet c k = cacheGet cache0 k ∨
    ∃ cat arts, k = (cat, perCat) ∧ env.outcomes cat = Outcome.success arts ∧
      freshHitB env cache0 k = false ∧
      cacheGet c k = some ⟨processArticles perCat arts, env.now⟩

theorem goodCache_refl (env : FetchEnv) (perCat : Nat) (cache0 : Cache) :
    GoodCache env perCat cache0 cache0 := fun _ => Or.inl rfl

theorem contrib_eq_of_goodCache {env : FetchEnv} {perCat : Nat} {cache0 c : Cache}
    (h : GoodCache env perCat cache0 c) (cat : String) :
    contrib env perCat c cat = contrib env perCat cache0 cat := by
  rcases h (cat, perCat) with heq | ⟨cat', arts, hk, hs, hfr, hc⟩
  · unfold contrib processCat
    rw [heq]
  · have hcat : cat = cat' := by
      have := congrArg Prod.fst hk
      simpa using this
    rw [← hcat] at hs
    have hftrue : freshHitB env c (cat, perCat) = true := by
      unfold freshHitB
      rw [hc]
      simp only [CACHE_DURATION, decide_eq_true_eq]
      omega
    obtain ⟨e, hce, hpc⟩ := processCat_of_fresh hftrue
    rw [hce] at hc
    have he : e = ⟨processArticles perCat arts, env.now⟩ := by injection hc
    unfold contrib
    rw [hpc, he, processCat_of_notFresh_success hfr hs]

theorem goodCache_step {env : FetchEnv} {perCat : Nat} {cache0 c : Cache}
    (h : GoodCache env perCat cache0 c) (b : List String) :
    GoodCache env perCat cache0 ((processBatch env perCat c b).2.1 ++ c) := by
  intro k
  have happ := cacheGet_append (processBatch env perCat c b).2.1 c k
  cases hw : cacheGet (processBatch env perCat c b).2.1 k with
  | none =>
    rw [hw] at happ
    dsimp only at happ
    rcases h k with heq | ⟨cat, arts, hk, hs, hfr, hc⟩
    · left
      rw [happ, heq]
    · right
      exact ⟨cat, arts, hk, hs, hfr, by rw [happ, hc]⟩
  | some e =>
    rw [hw] at happ
    dsimp only at happ
    have hmem := cacheGet_some_mem hw
    rw [processBatch_writes] at hmem
    obtain ⟨l, hl, hkel⟩ := List.mem_flatten.mp hmem
    obtain ⟨cat, hcat, hleq⟩ := List.mem_map.mp hl
    rw [← hleq] at hkel
    obtain ⟨arts, hkv, hs, hfrc⟩ := mem_writes hkel
    have hk : k = (cat, perCat) := by
      have := congrArg Prod.fst hkv
      simpa using this
    have he : e = ⟨processArticles perCat arts, env.now⟩ := by
      have := congrArg Prod.snd hkv
      simpa using this
    have hfr0 : freshHitB env cache0 k = false := by
      rcases h k with heq | ⟨cat', arts', hk', hs', hfr', hc'⟩
      · rw [← @freshHitB_congr env _ _ _ heq]
        rw [← hk] at hfrc
        exact hfrc
      · exfalso
        rw [← hk] at hfrc
        unfold freshHitB at hfrc
        rw [hc'] at hfrc
        simp only [CACHE_DURATION, decide_eq_false_iff_not] at hfrc
        omega
    right
    exact ⟨cat, arts, hk, hs, hfr0, by rw [happ, he]⟩

theorem runBatches_spec (env : FetchEnv) (perCat : Nat) (cache0 : Cache) :
    ∀ (bs : List (List String)) (c : Cache), GoodCache env perCat cache0 c →
      (runBatches env perCat bs c).1 =
        (bs.map (fun b => (b.map (contrib env perCat cache0)).flatten)).flatten ∧
      GoodCache env perCat cache0 (runBatches env perCat bs c).2.1 := by
  intro bs
  induction bs with
  | nil =>
    intro c h
    exact ⟨rfl, h⟩
  | cons b bs ih =>
    intro c h
    obtain ⟨ih1, ih2⟩ := ih ((processBatch env perCat c b).2.1 ++ c) (goodCache_step h b)
    rw [runBatches_cons]
    refine ⟨?_, ih2⟩
    dsimp only
    rw [ih1, List.map_cons, List.flatten_cons]
    congr 1
    rw [processBatch_arts]
    congr 1
    exact List.map_congr_left (fun cat _ => contrib_eq_of_goodCache h cat)

end NewsCached

namespace NewsCached

theorem freshHitB_append_of_fresh (env : FetchEnv) (perCat : Nat) {c : Cache} {cat : String}
    (b : List String) (hf : freshHitB env c (cat, perCat) = true) :
    cacheGet ((processBatch env perCat c b).2.1 ++ c) (cat, perCat) =
      cacheGet c (cat, perCat) := by
  rw [cacheGet_append]
  cases hw : cacheGet (processBatch env perCat c b).2.1 (cat, perCat) with
  | none => rfl
  | some e =>
    exfalso
    have hmem := cacheGet_some_mem hw
    rw [processBatch_writes] at hmem
    obtain ⟨l, hl, hkel⟩ := List.mem_flatten.mp hmem
    obtain ⟨cat', hcat', hleq⟩ := List.mem_map.mp hl
    rw [← hleq] at hkel
    obtain ⟨arts, hkv, _, hnf⟩ := mem_writes hkel
    have hceq : cat = cat' := by
      have := congrArg (fun x => x.1.1) hkv
      simpa using this
    rw [← hceq] at hnf
    rw [hf] at hnf
    exact Bool.noConfusion hnf

theorem cacheGet_writes_of_not_mem (env : FetchEnv) (perCat : Nat) {c : Cache}
    {b : List String} {cat : String} (hb : cat ∉ b) :
    cacheGet (processBatch env perCat c b).2.1 (cat, perCat) = none := by
  apply cacheGet_none_of_forall
  intro e he
  rw [processBatch_writes] at he
  obtain ⟨l, hl, hkel⟩ := List.mem_flatten.mp he
  obtain ⟨cat', hcat', hleq⟩ := List.mem_map.mp hl
  rw [← hleq] at hkel
  obtain ⟨arts, hkv, _, _⟩ := mem_writes hkel
  have hceq : cat = cat' := by
    have := congrArg (fun x => x.1.1) hkv
    simpa using this
  exact hb (by rw [hceq]; exact hcat')

theorem runBatches_no_request (env : FetchEnv) (perCat : Nat) (cat : String) :
    ∀ (bs : List (List String)) (c : Cache), freshHitB env c (cat, perCat) = true →
      cat ∉ (runBatches env perCat bs c).2.2 := by
  intro bs
  induction bs with
  | nil =>
    intro c _ hmem
    simp [runBatches_nil] at hmem
  | cons b bs ih =>
    intro c hf hmem
    rw [runBatches_cons] at hmem
    dsimp only at hmem
    rcases List.mem_append.mp hmem with hmem1 | hmem2
    · rw [processBatch_reqs] at hmem1
      obtain ⟨l, hl, hql⟩ := List.mem_flatten.mp hmem1
      obtain ⟨cat', hcat', hleq⟩ := List.mem_map.mp hl
      rw [← hleq] at hql
      obtain ⟨heq, hnf⟩ := mem_reqs hql
      rw [← heq] at hnf
      rw [hf] at hnf
      exact Bool.noConfusion hnf
    · have hkeep := freshHitB_append_of_fresh env perCat b hf
      exact ih _ ((freshHitB_congr hkeep).trans hf) hmem2

theorem runBatches_request (env : FetchEnv) (perCat : Nat) (cat : String) :
    ∀ (bs : List (List String)) (c : Cache), freshHitB env c (cat, perCat) = false →
      cat ∈ bs.flatten → cat ∈ (runBatches env perCat bs c).2.2 := by
  intro bs
  induction bs with
  | nil =>
    intro c _ hmem
    simp at hmem
  | cons b bs ih =>
    intro c hf hmem
    rw [runBatches_cons]
    dsimp only
    rw [List.mem_append]
    by_cases hb : cat ∈ b
    · left
      rw [processBatch_reqs]
      apply List.mem_flatten.mpr
      refine ⟨(processCat env perCat c cat).2.2, List.mem_map.mpr ⟨cat, hb, rfl⟩, ?_⟩
      rw [reqs_of_notFresh hf]
      exact List.mem_singleton.mpr rfl
    · right
      have hmem' : cat ∈ bs.flatten := by
        rw [List.flatten_cons] at hmem
        rcases List.mem_append.mp hmem with h1 | h2
        · exact absurd h1 hb
        · exact h2
      have hnone := @cacheGet_writes_of_not_mem env perCat c b cat hb
      have hkeep : cacheGet ((processBatch env perCat c b).2.1 ++ c) (cat, perCat) =
          cacheGet c (cat, perCat) := by
        rw [cacheGet_append, hnone]
      exact ih _ ((freshHitB_congr hkeep).trans hf) hmem'

theorem runBatches_cache_of_fresh (env : FetchEnv) (perCat : Nat) (cat : String) :
    ∀ (bs : List (List String)) (c : Cache), freshHitB env c (cat, perCat) = true →
      cacheGet (runBatches env perCat bs c).2.1 (cat, perCat) =
        cacheGet c (cat, perCat) := by
  intro bs
  induction bs with
  | nil =>
    intro c _
    rfl
  | cons b bs ih =>
    intro c hf
    rw [runBatches_cons]
    dsimp only
    have hkeep := freshHitB_append_of_fresh env perCat b hf
    rw [ih _ ((freshHitB_congr hkeep).trans hf), hkeep]

theorem runBatches_caches_success (env : FetchEnv) (perCat : Nat) (cache0 : Cache)
    (cat : String) (arts : List RawArticle) :
    ∀ (bs : List (List String)) (c : Cache), GoodCache env perCat cache0 c →
      cacheGet c (cat, perCat) = cacheGet cache0 (cat, perCat) →
      freshHitB env cache0 (cat, perCat) = false →
      env.outcomes cat = Outcome.success arts →
      cat ∈ bs.flatten →
      cacheGet (runBatches env perCat bs c).2.1 (cat, perCat) =
        some ⟨processArticles perCat arts, env.now⟩ := by
  intro bs
  induction bs with
  | nil =>
    intro c _ _ _ _ hmem
    simp at hmem
  | cons b bs ih =>
    intro c hg hEq hf0 hs hmem
    have hfc : freshHitB env c (cat, perCat) = false := (freshHitB_congr hEq).trans hf0
    rw [runBatches_cons]
    dsimp only
    by_cases hb : cat ∈ b
    · have hwrite : cacheGet (processBatch env perCat c b).2.1 (cat, perCat) =
          some ⟨processArticles perCat arts, env.now⟩ := by
        apply cacheGet_of_mem_unique
        · rw [processBatch_writes]
          apply List.mem_flatten.mpr
          refine ⟨(processCat env perCat c cat).2.1, List.mem_map.mpr ⟨cat, hb, rfl⟩, ?_⟩
          rw [processCat_of_notFresh_success hfc hs]
          exact List.mem_singleton.mpr rfl
        · intro e he
          rw [processBatch_writes] at he
          obtain ⟨l, hl, hkel⟩ := List.mem_flatten.mp he
          obtain ⟨cat', hcat', hleq⟩ := List.mem_map.mp hl
          rw [← hleq] at hkel
          obtain ⟨arts', hkv, hs', _⟩ := mem_writes hkel
          have hceq : cat = cat' := by
            have := congrArg (fun x => x.1.1) hkv
            simpa using this
          rw [← hceq] at hs'
          rw [hs] at hs'
          have harts : arts = arts' := by injection hs'
          have he2 : e = ⟨processArticles perCat arts', env.now⟩ := by
            have := congrArg Prod.snd hkv
            simpa using this
          rw [he2, ← harts]
      have hc' : cacheGet ((processBatch env perCat c b).2.1 ++ c) (cat, perCat) =
          some ⟨processArticles perCat arts, env.now⟩ := by
        rw [cacheGet_append, hwrite]
      have hfresh' : freshHitB env ((processBatch env perCat c b).2.1 ++ c) (cat, perCat) = true := by
        unfold freshHitB
        rw [hc']
        simp only [CACHE_DURATION, decide_eq_true_eq]
        omega
      rw [runBatches_cache_of_fresh env perCat cat bs _ hfresh', hc']
    · have hnone := @cacheGet_writes_of_not_mem env perCat c b cat hb
      have hkeep : cacheGet ((processBatch env perCat c b).2.1 ++ c) (cat, perCat) =
          cacheGet c (cat, perCat) := by
        rw [cacheGet_append, hnone]
      have hmem' : cat ∈ bs.flatten := by
        rw [List.flatten_cons] at hmem
        rcases List.mem_append.mp hmem with h1 | h2
        · exact absurd h1 hb
        · exact h2
      exact ih _ (goodCache_step hg b) (hkeep.trans hEq) hf0 hs hmem'

theorem chunkAux_flatten (n : Nat) (hn : 1 ≤ n) :
    ∀ (fuel : Nat) (l : List String), l.length ≤ fuel →
      (chunkAux n fuel l).flatten = l := by
  intro fuel
  induction fuel with
  | zero =>
    intro l hl
    have hnil : l = [] := List.eq_nil_of_length_eq_zero (Nat.le_zero.mp hl)
    rw [hnil]
    rfl
  | succ fuel ih =>
    intro l hl
    cases l with
    | nil => rfl
    | cons x xs =>
      simp only [chunkAux, List.flatten_cons]
      have hlen : (xs.drop (n - 1)).length ≤ fuel := by
        rw [List.length_drop]
        have hxs : xs.length ≤ fuel := by
          simp only [List.length_cons] at hl
          omega
        omega
      rw [ih _ hlen, List.cons_append, List.take_append_drop]

theorem chunkList_flatten (n : Nat) (hn : 1 ≤ n) (l : List String) :
    (chunkList n l).flatten = l :=
  chunkAux_flatten n hn l.length l le_rfl

end NewsCached

namespace NewsCached

theorem flatten_map_flatten (bs : List (List String)) (f : String → List NewsArticle) :
    (bs.map (fun b => (b.map f).flatten)).flatten = ((bs.flatten).map f).flatten := by
  induction bs with
  | nil => rfl
  | cons b bs ih =>
    simp only [List.map_cons, List.flatten_cons, List.map_append, List.flatten_append, ih]

theorem fetchArticles_ok (cats : List String) (p m : Nat) (env : FetchEnv) (cache : Cache)
    (hk : env.hasApiKey = true) (hp1 : 1 ≤ p) (hp2 : p ≤ 20) (hm1 : 1 ≤ m) (hm2 : m ≤ 5) :
    fetchArticles cats p m env cache =
      .ok (runBatches env p (chunkList m cats) cache) := by
  unfold fetchArticles
  by_cases hc : cats.isEmpty
  · have hnil : cats = [] := by
      cases cats with
      | nil => rfl
      | cons y ys => simp [List.isEmpty] at hc
    subst hnil
    simp [hk, chunkList, chunkAux, runBatches_nil]
  · have hnp : ¬ p < 1 := by omega
    have hnp2 : ¬ 20 < p := by omega
    have hnm : ¬ m < 1 := by omega
    have hnm2 : ¬ 5 < m := by omega
    simp [hk, hc, hnp, hnp2, hnm, hnm2]

theorem contrib_of_notFresh_failure {env : FetchEnv} {perCat : Nat} {c : Cache} {cat : String}
    (h : freshHitB env c (cat, perCat) = false) (hf : (env.outcomes cat).isFailure = true) :
    contrib env perCat c cat = [] := by
  unfold contrib
  rw [processCat_of_notFresh_failure h hf]

theorem contrib_of_notFresh_success {env : FetchEnv} {perCat : Nat} {c : Cache} {cat : String}
    {arts : List RawArticle}
    (h : freshHitB env c (cat, perCat) = false) (hs : env.outcomes cat = .success arts) :
    contrib env perCat c cat = processArticles perCat arts := by
  unfold contrib
  rw [processCat_of_notFresh_success h hs]

theorem fetchArticles_flatten (cats : List String) (p m : Nat) (env : FetchEnv)
    (cache0 : Cache)
    (hk : env.hasApiKey = true) (hp1 : 1 ≤ p) (hp2 : p ≤ 20) (hm1 : 1 ≤ m) (hm2 : m ≤ 5) :
    ∃ c q, fetchArticles cats p m env cache0 =
      .ok ((cats.map (contrib env p cache0)).flatten, c, q) := by
  rw [fetchArticles_ok cats p m env cache0 hk hp1 hp2 hm1 hm2]
  obtain ⟨h1, _⟩ := runBatches_spec env p cache0 (chunkList m cats) cache0
    (goodCache_refl env p cache0)
  have h2 : (runBatches env p (chunkList m cats) cache0).1 =
      (cats.map (contrib env p cache0)).flatten := by
    rw [h1, flatten_map_flatten, chunkList_flatten m hm1]
  refine ⟨(runBatches env p (chunkList m cats) cache0).2.1,
          (runBatches env p (chunkList m cats) cache0).2.2, ?_⟩
  rw [← h2]

theorem fetchArticles_two_calls (cats1 cats2 : List String) (cat : String) (p m1 m2 : Nat)
    (env1 env2 : FetchEnv) (cache0 : Cache) (arts : List RawArticle)
    (hk1 : env1.hasApiKey = true) (hk2 : env2.hasApiKey = true)
    (hp1 : 1 ≤ p) (hp2 : p ≤ 20)
    (hm11 : 1 ≤ m1) (hm12 : m1 ≤ 5) (hm21 : 1 ≤ m2) (hm22 : m2 ≤ 5)
    (hmem1 : cat ∈ cats1) (hmem2 : cat ∈ cats2)
    (hmiss : freshHitB env1 cache0 (cat, p) = false)
    (hs : env1.outcomes cat = Outcome.success arts) :
    ∃ r1 c1 q1, fetchArticles cats1 p m1 env1 cache0 = .ok (r1, c1, q1) ∧
      cacheGet c1 (cat, p) = some ⟨processArticles p arts, env1.now⟩ ∧
      (env2.now - env1.now < CACHE_DURATION →
        ∃ r2 c2 q2, fetchArticles cats2 p m2 env2 c1 = .ok (r2, c2, q2) ∧ cat ∉ q2) ∧
      (CACHE_DURATION ≤ env2.now - env1.now →
        ∃ r2 c2 q2, fetchArticles cats2 p m2 env2 c1 = .ok (r2, c2, q2) ∧ cat ∈ q2) := by
  rw [fetchArticles_ok cats1 p m1 env1 cache0 hk1 hp1 hp2 hm11 hm12]
  set R1 := runBatches env1 p (chunkList m1 cats1) cache0 with hR1
  have hcache : cacheGet R1.2.1 (cat, p) = some ⟨processArticles p arts, env1.now⟩ := by
    rw [hR1]
    exact runBatches_caches_success env1 p cache0 cat arts (chunkList m1 cats1) cache0
      (goodCache_refl env1 p cache0) rfl hmiss hs
      (by rw [chunkList_flatten m1 hm11]; exact hmem1)
  refine ⟨R1.1, R1.2.1, R1.2.2, rfl, hcache, ?_, ?_⟩
  · intro hlt
    rw [fetchArticles_ok cats2 p m2 env2 R1.2.1 hk2 hp1 hp2 hm21 hm22]
    have hfresh : freshHitB env2 R1.2.1 (cat, p) = true := by
      unfold freshHitB
      rw [hcache]
      simp only [decide_eq_true_eq]
      exact hlt
    exact ⟨(runBatches env2 p (chunkList m2 cats2) R1.2.1).1,
           (runBatches env2 p (chunkList m2 cats2) R1.2.1).2.1,
           (runBatches env2 p (chunkList m2 cats2) R1.2.1).2.2, rfl,
           runBatches_no_request env2 p cat (chunkList m2 cats2) R1.2.1 hfresh⟩
  · intro hge
    rw [fetchArticles_ok cats2 p m2 env2 R1.2.1 hk2 hp1 hp2 hm21 hm22]
    have hstale : freshHitB env2 R1.2.1 (cat, p) = false := by
      unfold freshHitB
      rw [hcache]
      simp only [decide_eq_false_iff_not]
      omega
    exact ⟨(runBatches env2 p (chunkList m2 cats2) R1.2.1).1,
           (runBatches env2 p (chunkList m2 cats2) R1.2.1).2.1,
           (runBatches env2 p (chunkList m2 cats2) R1.2.1).2.2, rfl,
           runBatches_request env2 p cat (chunkList m2 cats2) R1.2.1 hstale
             (by rw [chunkList_flatten m2 hm21]; exact hmem2)⟩

end NewsCached

/-!
## Schedule Engine (`src/unnamed/part_008`, the template-based
`newsletter/scheduled` Inngest function)

One run: `check-user-status` → (skip | `fetch-news` →
`generate-newsletter` → `send-email` → (`schedule-next` unless
`isTest`)).  The Supabase status query, the `fetchArticles` result and
the Resend outcome are inputs (`RunEnv`); the output collects the step
names that executed, the emails sent (recipient and subject; the HTML
body is built from the newsletter content and never observed), the
events emitted, and the returned value.
-/

namespace Newsletter

/-- The result of
`supabase.from("user_preferences").select("is_active").eq("user_id", ...).single()`:
either an error (including `PGRST116` when no row exists — `.single()`
errors on zero rows) or a row whose `is_active` may be null. -/
inductive QueryResult where
  | err (code : String)
  | ok (is_active : Option Bool)
deriving DecidableEq, Repr

/-- The `check-user-status` step body: any error yields `false`;
otherwise `data?.is_active || false`. -/
def checkUserStatus : QueryResult → Bool
  | .err _ => false
  | .ok b => b.getD false

/-- The payload of the triggering `newsletter.schedule` event. -/
structure NewsletterEvent where
  userId : String
  email : String
  categories : List String
  frequency : Option String
  scheduledFor : Option Int
  isTest : Option Bool
deriving DecidableEq, Repr

/-- The external world of one run. -/
structure RunEnv where
  statusQuery : QueryResult
  fetchResult : List NewsArticle
  sendOk : Bool
  dateStr : String
  now : Int
  tz : Int
deriving DecidableEq, Repr

/-- The value a run returns. -/
inductive RunResult where
  /-- `{skipped: true, reason, userId, runId}`. -/
  | skipped (reason userId runId : String)
  /-- `{newsletter, articleCount, categories, emailSent, nextScheduled, success, runId}`. -/
  | completed (newsletter : String) (articleCount : Nat) (categories : List String)
      (emailSent nextScheduled success : Bool) (runId : String)
  /-- the run threw (the outer catch rethrows). -/
  | failed (message : String)
deriving DecidableEq, Repr

/-- Everything observable about one run. -/
structure RunOutput where
  result : RunResult
  steps : List String
  emails : List (String × String)
  events : List SentEvent
deriving DecidableEq, Repr

/-- One numbered article block of the template. -/
def articleBlock (i : Nat) (a : NewsArticle) : String :=
  "\n### " ++ toString (i + 1) ++ ". " ++ a.title ++ "\n\n" ++
  a.description ++ "\n\n**Source:** " ++ optStr a.source ++
  "\n**Read more:** [" ++ a.title ++ "](" ++ a.url ++ ")\n"

/-- One quick-link line of the template. -/
def quickLink (i : Nat) (a : NewsArticle) : String :=
  toString (i + 1) ++ ". [" ++ a.title ++ "](" ++ a.url ++ ")"

/-- The `generate-newsletter` step: the markdown template over the top
five articles. -/
def generateNewsletter (ev : NewsletterEvent) (allArticles : List NewsArticle)
    (dateStr : String) : String :=
  let topArticles := allArticles.take 5
  "# Your Personalized Newsletter\n\n## 📰 Top Stories This Week\n\n" ++
  String.intercalate "\n" ((topArticles.enum).map (fun pa => articleBlock pa.1 pa.2)) ++
  "\n\n## 📊 Newsletter Summary\n\n- **Categories:** " ++
  String.intercalate ", " ev.categories ++
  "\n- **Articles Analyzed:** " ++ toString allArticles.length ++
  "\n- **Generated:** " ++ dateStr ++
  "\n- **Frequency:** " ++ optStr ev.frequency ++
  "\n\n## 🔗 Quick Links\n\n" ++
  String.intercalate "\n" (((topArticles.take 3).enum).map (fun pa => quickLink pa.1 pa.2)) ++
  "\n\n---\n\n*This newsletter was automatically generated based on your selected categories. Stay informed with the latest news and insights!*\n\n**Categories:** " ++
  String.intercalate ", " ev.categories ++
  "\n**Total Articles:** " ++ toString allArticles.length ++
  "\n**Generated on:** " ++ dateStr

/-- The subject line of the `send-email` step. -/
def subjectLine (ev : NewsletterEvent) : String :=
  "📰 Your " ++ optStr ev.frequency ++ " newsletter: " ++
  String.intercalate ", " ev.categories

/-- The `schedule-next` step's time computation: offset by frequency
(defaulting to weekly), then `setHours(9, 0, 0, 0)`. -/
def scheduleNextTime (frequency : Option String) (now tz : Int) : Int :=
  let nextScheduleTime : Int :=
    if frequency = some "daily" then now + 24 * 60 * 60 * 1000
    else if frequency = some "weekly" then now + 7 * 24 * 60 * 60 * 1000
    else if frequency = some "biweekly" then now + 14 * 24 * 60 * 60 * 1000
    else now + 7 * 24 * 60 * 60 * 1000
  setHours9 tz nextScheduleTime

/-- The event sent by `schedule-next`: same subscriber data,
`scheduledFor` and `ts` set to the computed time. -/
def nextEvent (ev : NewsletterEvent) (t : Int) : SentEvent :=
  { name := "newsletter.schedule"
    userId := ev.userId
    email := ev.email
    categories := ev.categories
    frequency := ev.frequency
    scheduledFor := some t
    isTest := none
    ts := some t }

/-- One full run of the `newsletter/scheduled` function of `part_008`. -/
def runScheduledNewsletter (ev : NewsletterEvent) (env : RunEnv) (runId : String) :
    RunOutput :=
  let isUserActive := checkUserStatus env.statusQuery
  if isUserActive = false then
    { result := .skipped "User newsletter is paused" ev.userId runId
      steps := ["check-user-status"]
      emails := []
      events := [] }
  else
    let allArticles := env.fetchResult
    let newsletterContent := generateNewsletter ev allArticles env.dateStr
    if newsletterContent = "" then
      { result := .failed "Failed to generate newsletter content"
        steps := ["check-user-status", "fetch-news", "generate-newsletter"]
        emails := []
        events := [] }
    else if env.sendOk = false then
      { result := .failed "Email sending failed"
        steps := ["check-user-status", "fetch-news", "generate-newsletter", "send-email"]
        emails := []
        events := [] }
    else if ev.isTest.getD false = true then
      { result := .completed newsletterContent allArticles.length ev.categories
          true true true runId
        steps := ["check-user-status", "fetch-news", "generate-newsletter", "send-email"]
        emails := [(ev.email, subjectLine ev)]
        events := [] }
    else
      { result := .completed newsletterContent allArticles.length ev.categories
          true true true runId
        steps := ["check-user-status", "fetch-news", "generate-newsletter", "send-email",
                  "schedule-next"]
        emails := [(ev.email, subjectLine ev)]
        events := [nextEvent ev (scheduleNextTime ev.frequency env.now env.tz)] }

theorem append_ne_empty_left (s t : String) (h : s.length ≠ 0) : s ++ t ≠ "" := by
  intro he
  have hlen := congrArg String.length he
  rw [String.length_append] at hlen
  have h0 : ("" : String).length = 0 := rfl
  omega

theorem length_append_ne_zero_left (s t : String) (h : s.length ≠ 0) :
    (s ++ t).length ≠ 0 := by
  rw [String.length_append]
  omega

theorem generateNewsletter_ne_empty (ev : NewsletterEvent) (allArticles : List NewsArticle)
    (dateStr : String) : generateNewsletter ev allArticles dateStr ≠ "" := by
  unfold generateNewsletter
  apply append_ne_empty_left
  repeat apply length_append_ne_zero_left
  decide

end Newsletter

/-!
## Schedule Engine, RPC-gate revision
(`src/src/lib/inngest/functions/scheduled-newsletter.ts`, second
document)

This revision reads the status through the
`check_user_newsletter_status` RPC.  Its `check-user-status` step
treats a `PGRST116` (not found) error, and an empty row set, as
*active* ("assume active (fallback)"); any other error yields `false`.
Its `schedule-next` step short-circuits on `event.data.scheduledFor`.
-/

namespace NewsletterSN

/-- One row returned by the `check_user_newsletter_status` RPC. -/
structure RpcPrefs where
  is_active : Option Bool
  categories : List String
  frequency : Option String
  email : Option String
deriving DecidableEq, Repr

/-- The result of `supabase.rpc("check_user_newsletter_status", ...)`. -/
inductive RpcResult where
  | err (code : String)
  | ok (rows : List RpcPrefs)
deriving DecidableEq, Repr

/-- The `check-user-status` step of the RPC revision: `PGRST116` and a
missing first row both fall back to *active*; other errors are
inactive; otherwise `userPrefs.is_active || false`. -/
def checkUserStatus : RpcResult → Bool
  | .err code => if code = "PGRST116" then true else false
  | .ok rows =>
    match rows.head? with
    | none => true
    | some userPrefs => userPrefs.is_active.getD false

/-- The `schedule-next` time of this revision: `event.data.scheduledFor`
verbatim when present (no 09:00 normalization), otherwise the same
frequency switch followed by `setHours(9, 0, 0, 0)`. -/
def scheduleNextTime (scheduledFor : Option Int) (frequency : Option String)
    (now tz : Int) : Int :=
  match scheduledFor with
  | some t => t
  | none =>
    let nextScheduleTime : Int :=
      if frequency = some "daily" then now + 24 * 60 * 60 * 1000
      else if frequency = some "weekly" then now + 7 * 24 * 60 * 60 * 1000
      else if frequency = some "biweekly" then now + 14 * 24 * 60 * 60 * 1000
      else now + 7 * 24 * 60 * 60 * 1000
    setHours9 tz nextScheduleTime

end NewsletterSN

/-!
## Preference API, current revision (`src/src/app/api/user-preferences/route.ts`)

`POST` validates categories / frequency / email, upserts the row with
`is_active: true`, and sends one immediate `newsletter.schedule` event
with `isTest: true` (no `scheduledFor`, no `ts`).  `PATCH` updates
`is_active`; on reactivation it reads the stored preferences and sends
*one* `newsletter.schedule` event with the stored data, no
`scheduledFor`, and `isTest` true outside production.
-/

namespace PrefApi

/-- `POST /api/user-preferences`.  `user` is the authenticated user id
(if any); `upsertOk` and `inngestOk` are the vendor-call outcomes.
Returns the response, the store after the call, and the events sent. -/
def POST (user : Option String) (body : PostBody) (store : PrefStore)
    (upsertOk inngestOk : Bool) : ApiResponse × PrefStore × List SentEvent :=
  match user with
  | none =>
    ({ status := 401, errorMsg := some "You must be logged in to save preferences." },
     store, [])
  | some uid =>
    if categoriesInvalid body.categories then
      ({ status := 400,
         errorMsg := some "Categories array is required and must not be empty" },
       store, [])
    else if frequencyInvalid body.frequency then
      ({ status := 400,
         errorMsg := some "Valid frequency is required (daily, weekly, biweekly)" },
       store, [])
    else if emailInvalid body.email then
      ({ status := 400, errorMsg := some "Valid email address is required" }, store, [])
    else
      let cats := match body.categories with
        | .arr cs => cs
        | _ => []
      let freq := body.frequency.getD ""
      if upsertOk = false then
        ({ status := 500, errorMsg := some "Failed to save preferences" }, store, [])
      else
        let store1 := upsertPrefs store uid
          { categories := cats, frequency := freq, email := body.email, is_active := true }
        let evt : SentEvent :=
          { name := "newsletter.schedule"
            userId := uid
            email := body.email.getD ""
            categories := cats
            frequency := some freq
            scheduledFor := none
            isTest := some true
            ts := none }
        if inngestOk then
          ({ status := 200, errorMsg := none }, store1, [evt])
        else
          ({ status := 200, errorMsg := none }, store1, [])

/-- `PATCH /api/user-preferences`: update `is_active`; on reactivation,
read the stored preferences (`prefs`, `none` when the read failed or no
row exists) and send one immediate schedule event; every failure after
the update still returns 200. -/
def PATCH (user : Option String) (is_active : Bool) (updateOk : Bool)
    (prefs : Option PrefRecord) (isProd : Bool) (inngestOk : Bool) :
    ApiResponse × List SentEvent :=
  match user with
  | none =>
    ({ status := 401, errorMsg := some "You must be logged in to update preferences." }, [])
  | some uid =>
    if updateOk = false then
      ({ status := 500, errorMsg := some "Failed to update preferences" }, [])
    else if is_active then
      match prefs with
      | some p =>
        if inngestOk then
          ({ status := 200, errorMsg := none },
           [{ name := "newsletter.schedule"
              userId := uid
              email := p.email
              categories := p.categories
              frequency := some p.frequency
              scheduledFor := none
              isTest := some (!isProd)
              ts := none }])
        else
          ({ status := 200, errorMsg := none }, [])
      | none => ({ status := 200, errorMsg := none }, [])
    else
      ({ status := 200, errorMsg := none }, [])

end PrefApi

/-!
## Preference API, dual-schedule revision (`src/src/app/api/inngest/route.ts`,
second document)

`POST` validates categories / frequency (no email check), upserts,
computes the first schedule time from the frequency switch (each branch
normalized to 09:00) and sends one event carrying `scheduledFor` and
`isTest: true`.  `PATCH` on reactivation calls
`rescheduleUserNewsletter`, which sends *two* events: an immediate one
at `now + 5min` and a regular one at the frequency offset at 09:00,
both with the stored categories, frequency and email and
`isTest: false`.
-/

namespace PrefApi2

/-- The `switch (frequency)` of this revision's `POST`: every branch,
including the default, is `setHours(9, 0, 0, 0)`-normalized. -/
def firstScheduleTime (frequency : String) (now tz : Int) : Int :=
  if frequency = "daily" then setHours9 tz (now + 24 * 60 * 60 * 1000)
  else if frequency = "weekly" then setHours9 tz (now + 7 * 24 * 60 * 60 * 1000)
  else if frequency = "biweekly" then setHours9 tz (now + 14 * 24 * 60 * 60 * 1000)
  else setHours9 tz (now + 7 * 24 * 60 * 60 * 1000)

/-- `POST` of the dual-schedule revision. -/
def POST (user : Option String) (body : PostBody) (store : PrefStore)
    (upsertOk inngestOk : Bool) (now tz : Int) :
    ApiResponse × PrefStore × List SentEvent :=
  match user with
  | none =>
    ({ status := 401, errorMsg := some "You must be logged in to save preferences." },
     store, [])
  | some uid =>
    if categoriesInvalid body.categories then
      ({ status := 400,
         errorMsg := some "Categories array is required and must not be empty" },
       store, [])
    else if frequencyInvalid body.frequency then
      ({ status := 400,
         errorMsg := some "Valid frequency is required (daily, weekly, biweekly)" },
       store, [])
    else
      let cats := match body.categories with
        | .arr cs => cs
        | _ => []
      let freq := body.frequency.getD ""
      if upsertOk = false then
        ({ status := 500, errorMsg := some "Failed to save preferences" }, store, [])
      else
        let store1 := upsertPrefs store uid
          { categories := cats, frequency := freq, email := body.email, is_active := true }
        if inngestOk then
          ({ status := 200, errorMsg := none }, store1,
           [{ name := "newsletter.schedule"
              userId := uid
              email := body.email.getD ""
              categories := cats
              frequency := some freq
              scheduledFor := some (firstScheduleTime freq now tz)
              isTest := some true
              ts := none }])
        else
          ({ status := 500, errorMsg := some "Internal server error" }, store1, [])

/-- `rescheduleUserNewsletter(userId)`: throws when the preferences
read fails; otherwise sends the immediate (`now + 5min`) and the
regular (frequency offset at 09:00) schedule events. -/
def rescheduleUserNewsletter (userId : String) (prefs : Option PrefRecord)
    (now tz : Int) : Except String (List SentEvent) :=
  match prefs with
  | none => .error "User preferences not found"
  | some p =>
    let immediateScheduleTime := now + 5 * 60 * 1000
    let nextScheduleTime :=
      setHours9 tz
        (if p.frequency = "daily" then now + 24 * 60 * 60 * 1000
         else if p.frequency = "weekly" then now + 7 * 24 * 60 * 60 * 1000
         else if p.frequency = "biweekly" then now + 14 * 24 * 60 * 60 * 1000
         else now + 7 * 24 * 60 * 60 * 1000)
    .ok
      [{ name := "newsletter.schedule"
         userId := userId
         email := p.email
         categories := p.categories
         frequency := some p.frequency
         scheduledFor := some immediateScheduleTime
         isTest := some false
         ts := some immediateScheduleTime },
       { name := "newsletter.schedule"
         userId := userId
         email := p.email
         categories := p.categories
         frequency := some p.frequency
         scheduledFor := some nextScheduleTime
         isTest := some false
         ts := some nextScheduleTime }]

/-- `PATCH` of the dual-schedule revision: on reactivation it calls
`rescheduleUserNewsletter`, whose failure is caught and logged. -/
def PATCH (user : Option String) (is_active : Bool) (updateOk : Bool)
    (prefs : Option PrefRecord) (now tz : Int) : ApiResponse × List SentEvent :=
  match user with
  | none =>
    ({ status := 401, errorMsg := some "You must be logged in to update preferences." }, [])
  | some uid =>
    if updateOk = false then
      ({ status := 500, errorMsg := some "Failed to update preferences" }, [])
    else if is_active then
      match rescheduleUserNewsletter uid prefs now tz with
      | .ok evs => ({ status := 200, errorMsg := none }, evs)
      | .error _ => ({ status := 200, errorMsg := none }, [])
    else
      ({ status := 200, errorMsg := none }, [])

end PrefApi2

/-!
## Claim theorems
-/

/-- Claim C1: for every frequency in {daily, weekly, biweekly} the
schedule-next step computes now plus {1, 7, 14} days normalized to
09:00 local time, any other or missing frequency uses the weekly
offset, and the other revisions' switches (the `scheduled-newsletter`
revision without a `scheduledFor` override, and the preference `POST`'s
first-schedule switch) agree. -/
theorem c1_next_run_computation (now tz : Int) (f : Option String)
    (hf : f ≠ some "daily" ∧ f ≠ some "weekly" ∧ f ≠ some "biweekly") :
    Newsletter.scheduleNextTime (some "daily") now tz = setHours9 tz (now + dayMs) ∧
    Newsletter.scheduleNextTime (some "weekly") now tz = setHours9 tz (now + 7 * dayMs) ∧
    Newsletter.scheduleNextTime (some "biweekly") now tz = setHours9 tz (now + 14 * dayMs) ∧
    Newsletter.scheduleNextTime f now tz = setHours9 tz (now + 7 * dayMs) ∧
    (∀ g : Option String, NewsletterSN.scheduleNextTime none g now tz =
      Newsletter.scheduleNextTime g now tz) ∧
    PrefApi2.firstScheduleTime "daily" now tz = setHours9 tz (now + dayMs) ∧
    PrefApi2.firstScheduleTime "weekly" now tz = setHours9 tz (now + 7 * dayMs) ∧
    PrefApi2.firstScheduleTime "biweekly" now tz = setHours9 tz (now + 14 * dayMs) := by
  obtain ⟨hfd, hfw, hfb⟩ := hf
  refine ⟨?_, ?_, ?_, ?_, fun g => rfl, ?_, ?_, ?_⟩
  · simp +decide [Newsletter.scheduleNextTime, dayMs]
  · simp +decide [Newsletter.scheduleNextTime, dayMs]
  · simp +decide [Newsletter.scheduleNextTime, dayMs]
  · simp +decide [Newsletter.scheduleNextTime, dayMs, hfd, hfw, hfb]
  · simp +decide [PrefApi2.firstScheduleTime, dayMs]
  · simp +decide [PrefApi2.firstScheduleTime, dayMs]
  · simp +decide [PrefApi2.firstScheduleTime, dayMs]

theorem c1_witness :
    ((some "monthly" : Option String) ≠ some "daily" ∧
     (some "monthly" : Option String) ≠ some "weekly" ∧
     (some "monthly" : Option String) ≠ some "biweekly") ∧
    (Newsletter.scheduleNextTime (some "daily") 0 0 = setHours9 0 (0 + dayMs) ∧
     Newsletter.scheduleNextTime (some "weekly") 0 0 = setHours9 0 (0 + 7 * dayMs) ∧
     Newsletter.scheduleNextTime (some "biweekly") 0 0 = setHours9 0 (0 + 14 * dayMs) ∧
     Newsletter.scheduleNextTime (some "monthly") 0 0 = setHours9 0 (0 + 7 * dayMs) ∧
     (∀ g : Option String, NewsletterSN.scheduleNextTime none g 0 0 =
       Newsletter.scheduleNextTime g 0 0) ∧
     PrefApi2.firstScheduleTime "daily" 0 0 = setHours9 0 (0 + dayMs) ∧
     PrefApi2.firstScheduleTime "weekly" 0 0 = setHours9 0 (0 + 7 * dayMs) ∧
     PrefApi2.firstScheduleTime "biweekly" 0 0 = setHours9 0 (0 + 14 * dayMs)) :=
  ⟨by decide, c1_next_run_computation 0 0 (some "monthly") (by decide)⟩

/-- Claim C2: a run whose status gate yields false executes only the
`check-user-status` step — no fetch, no content generation, no email,
no reschedule — and returns exactly
`{skipped: true, reason: "User newsletter is paused", userId, runId}`. -/
theorem c2_gate_short_circuit (ev : Newsletter.NewsletterEvent)
    (env : Newsletter.RunEnv) (runId : String)
    (h : Newsletter.checkUserStatus env.statusQuery = false) :
    Newsletter.runScheduledNewsletter ev env runId =
      { result := Newsletter.RunResult.skipped "User newsletter is paused" ev.userId runId
        steps := ["check-user-status"]
        emails := []
        events := [] } := by
  simp [Newsletter.runScheduledNewsletter, h]

theorem c2_witness :
    Newsletter.checkUserStatus (Newsletter.QueryResult.ok (some false)) = false ∧
    Newsletter.runScheduledNewsletter
      ⟨"u1", "u1@example.com", ["ai"], some "weekly", none, none⟩
      ⟨Newsletter.QueryResult.ok (some false), [], true, "1/1/2024", 0, 0⟩ "run-1" =
      { result := Newsletter.RunResult.skipped "User newsletter is paused" "u1" "run-1"
        steps := ["check-user-status"]
        emails := []
        events := [] } :=
  ⟨by decide, c2_gate_short_circuit _ _ _ (by decide)⟩

/-- Claim C6: a run whose event carries `isTest = true` skips the
schedule-next step entirely and emits zero schedule events; a completed
non-test run (gate active, email sent) emits exactly one. -/
theorem c6_test_run_no_reschedule (ev : Newsletter.NewsletterEvent)
    (env : Newsletter.RunEnv) (runId : String) :
    (ev.isTest = some true →
      (Newsletter.runScheduledNewsletter ev env runId).events = [] ∧
      "schedule-next" ∉ (Newsletter.runScheduledNewsletter ev env runId).steps) ∧
    (ev.isTest.getD false = false →
      Newsletter.checkUserStatus env.statusQuery = true →
      env.sendOk = true →
      (Newsletter.runScheduledNewsletter ev env runId).events.length = 1) := by
  have hne := Newsletter.generateNewsletter_ne_empty ev env.fetchResult env.dateStr
  constructor
  · intro ht
    have ht' : ev.isTest.getD false = true := by rw [ht]; rfl
    cases hg : Newsletter.checkUserStatus env.statusQuery
    · simp [Newsletter.runScheduledNewsletter, hg]
    · cases hs : env.sendOk
      · simp [Newsletter.runScheduledNewsletter, hg, hs, hne]
      · simp [Newsletter.runScheduledNewsletter, hg, hs, hne, ht']
  · intro ht hg hs
    simp [Newsletter.runScheduledNewsletter, hg, hs, hne, ht]

theorem c6_witness :
    ((Newsletter.runScheduledNewsletter
        ⟨"u1", "u1@example.com", ["ai"], some "weekly", none, some true⟩
        ⟨Newsletter.QueryResult.ok (some true), [], true, "1/1/2024", 0, 0⟩ "run-1").events = [] ∧
     "schedule-next" ∉ (Newsletter.runScheduledNewsletter
        ⟨"u1", "u1@example.com", ["ai"], some "weekly", none, some true⟩
        ⟨Newsletter.QueryResult.ok (some true), [], true, "1/1/2024", 0, 0⟩ "run-1").steps) ∧
    (Newsletter.runScheduledNewsletter
        ⟨"u1", "u1@example.com", ["ai"], some "weekly", none, none⟩
        ⟨Newsletter.QueryResult.ok (some true), [], true, "1/1/2024", 0, 0⟩ "run-1").events.length = 1 :=
  ⟨(c6_test_run_no_reschedule _ _ _).1 rfl,
   (c6_test_run_no_reschedule _ _ _).2 rfl (by decide) rfl⟩

/-- Claim C10: every run that passes the gate and completes returns
`emailSent`, `nextScheduled` and `success` all literally `true` — in
particular `nextScheduled` is reported `true` even on `isTest` runs,
which emit no schedule event. -/
theorem c10_completion_output_constants (ev : Newsletter.NewsletterEvent)
    (env : Newsletter.RunEnv) (runId : String)
    (hg : Newsletter.checkUserStatus env.statusQuery = true)
    (hs : env.sendOk = true) :
    (∃ nl : String, (Newsletter.runScheduledNewsletter ev env runId).result =
      Newsletter.RunResult.completed nl env.fetchResult.length ev.categories
        true true true runId) ∧
    (ev.isTest = some true →
      (Newsletter.runScheduledNewsletter ev env runId).events = []) := by
  have hne := Newsletter.generateNewsletter_ne_empty ev env.fetchResult env.dateStr
  constructor
  · refine ⟨Newsletter.generateNewsletter ev env.fetchResult env.dateStr, ?_⟩
    cases ht : ev.isTest.getD false
    · simp [Newsletter.runScheduledNewsletter, hg, hs, hne, ht]
    · simp [Newsletter.runScheduledNewsletter, hg, hs, hne, ht]
  · intro ht
    have ht' : ev.isTest.getD false = true := by rw [ht]; rfl
    simp [Newsletter.runScheduledNewsletter, hg, hs, hne, ht']

theorem c10_witness :
    (∃ nl : String, (Newsletter.runScheduledNewsletter
        ⟨"u1", "u1@example.com", ["ai"], some "weekly", none, some true⟩
        ⟨Newsletter.QueryResult.ok (some true), [], true, "1/1/2024", 0, 0⟩ "run-1").result =
      Newsletter.RunResult.completed nl 0 ["ai"] true true true "run-1") ∧
    ((some true : Option Bool) = some true →
      (Newsletter.runScheduledNewsletter
        ⟨"u1", "u1@example.com", ["ai"], some "weekly", none, some true⟩
        ⟨Newsletter.QueryResult.ok (some true), [], true, "1/1/2024", 0, 0⟩ "run-1").events = []) :=
  c10_completion_output_constants _ _ _ (by decide) rfl

/-- Claim C4, counterexample: in the RPC-gate revision the
`check-user-status` step treats a `PGRST116` record-not-found error as
*active* ("assume active (fallback)"), not inactive, so the claim's
"not found ⇒ treat as inactive and skip" fails on that revision. -/
theorem c4_counterexample :
    ¬ (NewsletterSN.checkUserStatus (NewsletterSN.RpcResult.err "PGRST116") = false) := by
  decide

/-- Claim C4 as amended: in the `.single()`-based gate revision
(`part_008` and the first `scheduled-newsletter.ts` document), every
status-read error — including the `PGRST116` error that a
record-not-found produces under `.single()` — makes the gate return
inactive and the run skip; the RPC revision fails closed only on
errors other than not-found, and treats not-found (error `PGRST116` or
an empty row set) as active. -/
theorem c4_gate_fail_closed (ev : Newsletter.NewsletterEvent)
    (env : Newsletter.RunEnv) (runId code : String)
    (hq : env.statusQuery = Newsletter.QueryResult.err code) :
    Newsletter.checkUserStatus env.statusQuery = false ∧
    Newsletter.runScheduledNewsletter ev env runId =
      { result := Newsletter.RunResult.skipped "User newsletter is paused" ev.userId runId
        steps := ["check-user-status"]
        emails := []
        events := [] } ∧
    Newsletter.checkUserStatus (Newsletter.QueryResult.err "PGRST116") = false ∧
    (code ≠ "PGRST116" →
      NewsletterSN.checkUserStatus (NewsletterSN.RpcResult.err code) = false) ∧
    NewsletterSN.checkUserStatus (NewsletterSN.RpcResult.err "PGRST116") = true ∧
    NewsletterSN.checkUserStatus (NewsletterSN.RpcResult.ok []) = true := by
  have h1 : Newsletter.checkUserStatus env.statusQuery = false := by
    rw [hq]
    rfl
  refine ⟨h1, ?_, rfl, ?_, rfl, rfl⟩
  · simp [Newsletter.runScheduledNewsletter, h1]
  · intro hcode
    simp [NewsletterSN.checkUserStatus, hcode]

theorem c4_witness :
    ((Newsletter.QueryResult.err "PGRST116" : Newsletter.QueryResult) =
       Newsletter.QueryResult.err "PGRST116") ∧
    (Newsletter.checkUserStatus (Newsletter.QueryResult.err "PGRST116") = false ∧
     Newsletter.runScheduledNewsletter
       ⟨"u1", "u1@example.com", ["ai"], some "weekly", none, none⟩
       ⟨Newsletter.QueryResult.err "PGRST116", [], true, "1/1/2024", 0, 0⟩ "run-1" =
       { result := Newsletter.RunResult.skipped "User newsletter is paused" "u1" "run-1"
         steps := ["check-user-status"]
         emails := []
         events := [] } ∧
     Newsletter.checkUserStatus (Newsletter.QueryResult.err "PGRST116") = false ∧
     ("PGRST116" ≠ "PGRST116" →
       NewsletterSN.checkUserStatus (NewsletterSN.RpcResult.err "PGRST116") = false) ∧
     NewsletterSN.checkUserStatus (NewsletterSN.RpcResult.err "PGRST116") = true ∧
     NewsletterSN.checkUserStatus (NewsletterSN.RpcResult.ok []) = true) ∧
    (Newsletter.checkUserStatus (Newsletter.QueryResult.err "PGRST301") = false ∧
     Newsletter.runScheduledNewsletter
       ⟨"u1", "u1@example.com", ["ai"], some "weekly", none, none⟩
       ⟨Newsletter.QueryResult.err "PGRST301", [], true, "1/1/2024", 0, 0⟩ "run-1" =
       { result := Newsletter.RunResult.skipped "User newsletter is paused" "u1" "run-1"
         steps := ["check-user-status"]
         emails := []
         events := [] } ∧
     Newsletter.checkUserStatus (Newsletter.QueryResult.err "PGRST116") = false ∧
     ("PGRST301" ≠ "PGRST116" →
       NewsletterSN.checkUserStatus (NewsletterSN.RpcResult.err "PGRST301") = false) ∧
     NewsletterSN.checkUserStatus (NewsletterSN.RpcResult.err "PGRST116") = true ∧
     NewsletterSN.checkUserStatus (NewsletterSN.RpcResult.ok []) = true) :=
  ⟨rfl,
   c4_gate_fail_closed
     ⟨"u1", "u1@example.com", ["ai"], some "weekly", none, none⟩
     ⟨Newsletter.QueryResult.err "PGRST116", [], true, "1/1/2024", 0, 0⟩
     "run-1" "PGRST116" rfl,
   c4_gate_fail_closed
     ⟨"u1", "u1@example.com", ["ai"], some "weekly", none, none⟩
     ⟨Newsletter.QueryResult.err "PGRST301", [], true, "1/1/2024", 0, 0⟩
     "run-1" "PGRST301" rfl⟩

/-- Claim C3, counterexample: in the current
`user-preferences/route.ts` revision, reactivating a paused subscriber
(PATCH `is_active: true`) emits exactly one `newsletter.schedule`
event, not two. -/
theorem c3_counterexample :
    ¬ ((PrefApi.PATCH (some "user-1") true true
          (some ⟨["technology", "ai"], "weekly", "x@example.com"⟩) true true).2.length = 2) := by
  decide

/-- Time-of-day bound used to separate the two reactivation events:
a 09:00-normalized time at least one day ahead is never `now + 5min`. -/
theorem fiveMin_ne_scheduled (now tz t : Int) (ht : now + dayMs ≤ t) :
    setHours9 tz t ≠ now + 5 * 60 * 1000 := by
  unfold setHours9
  intro h
  have h1 := Int.fdiv_add_fmod (t + tz) dayMs
  have h2 : 0 ≤ (t + tz).fmod dayMs :=
    Int.fmod_nonneg' _ (by norm_num [dayMs])
  have h3 : (t + tz).fmod dayMs < dayMs :=
    Int.fmod_lt_of_pos _ (by norm_num [dayMs])
  simp only [dayMs] at h h1 h2 h3 ht
  omega

/-- The frequency switch of `rescheduleUserNewsletter` agrees with the
`schedule-next` switch of `part_008`. -/
theorem scheduleNextTime_some (fr : String) (now tz : Int) :
    Newsletter.scheduleNextTime (some fr) now tz =
      setHours9 tz
        (if fr = "daily" then now + 24 * 60 * 60 * 1000
         else if fr = "weekly" then now + 7 * 24 * 60 * 60 * 1000
         else if fr = "biweekly" then now + 14 * 24 * 60 * 60 * 1000
         else now + 7 * 24 * 60 * 60 * 1000) := by
  unfold Newsletter.scheduleNextTime
  by_cases h1 : fr = "daily"
  · simp [h1]
  · by_cases h2 : fr = "weekly"
    · simp [h1, h2]
    · by_cases h3 : fr = "biweekly"
      · simp [h1, h2, h3]
      · simp [h1, h2, h3]

/-- Claim C3 as amended: in the dual-schedule revision
(`rescheduleUserNewsletter` in the `inngest/route.ts` document),
reactivation emits exactly two distinct events — one at `now + 5min`,
one at the regular frequency offset normalized to 09:00 — both
carrying the stored categories and email; the current
`user-preferences/route.ts` revision instead emits a single event with
the stored categories and email, no `scheduledFor`, and `isTest` set
outside production. -/
theorem c3_reactivation_dual_schedule (u : String) (p : PrefRecord) (now tz : Int) :
    (∃ e1 e2 : SentEvent,
      (PrefApi2.PATCH (some u) true true (some p) now tz).2 = [e1, e2] ∧
      e1 ≠ e2 ∧
      e1.name = "newsletter.schedule" ∧ e2.name = "newsletter.schedule" ∧
      e1.scheduledFor = some (now + 5 * 60 * 1000) ∧
      e2.scheduledFor = some (Newsletter.scheduleNextTime (some p.frequency) now tz) ∧
      e1.categories = p.categories ∧ e2.categories = p.categories ∧
      e1.email = p.email ∧ e2.email = p.email) ∧
    (∀ isProd : Bool, ∃ e : SentEvent,
      (PrefApi.PATCH (some u) true true (some p) isProd true).2 = [e] ∧
      e.categories = p.categories ∧ e.email = p.email ∧
      e.scheduledFor = none ∧ e.isTest = some (!isProd)) := by
  constructor
  · have hoff : now + dayMs ≤
        (if p.frequency = "daily" then now + 24 * 60 * 60 * 1000
         else if p.frequency = "weekly" then now + 7 * 24 * 60 * 60 * 1000
         else if p.frequency = "biweekly" then now + 14 * 24 * 60 * 60 * 1000
         else now + 7 * 24 * 60 * 60 * 1000) := by
      split_ifs <;> simp [dayMs]
    have hne := fiveMin_ne_scheduled now tz _ hoff
    refine ⟨_, _, rfl, ?_, rfl, rfl, rfl, ?_, rfl, rfl, rfl, rfl⟩
    · intro he
      have hsf := congrArg SentEvent.scheduledFor he
      simp only at hsf
      have hval := Option.some.inj hsf
      exact hne hval.symm
    · rw [scheduleNextTime_some]
  · intro isProd
    exact ⟨_, rfl, rfl, rfl, rfl, rfl⟩

theorem c3_amended_witness :
    ∃ e1 e2 : SentEvent,
      (PrefApi2.PATCH (some "user-1") true true
        (some ⟨["technology", "ai"], "weekly", "x@example.com"⟩) 0 0).2 = [e1, e2] ∧
      e1 ≠ e2 ∧
      e1.name = "newsletter.schedule" ∧ e2.name = "newsletter.schedule" ∧
      e1.scheduledFor = some (0 + 5 * 60 * 1000) ∧
      e2.scheduledFor = some (Newsletter.scheduleNextTime (some "weekly") 0 0) ∧
      e1.categories = ["technology", "ai"] ∧ e2.categories = ["technology", "ai"] ∧
      e1.email = "x@example.com" ∧ e2.email = "x@example.com" :=
  (c3_reactivation_dual_schedule "user-1"
    ⟨["technology", "ai"], "weekly", "x@example.com"⟩ 0 0).1

/-- Claim C9: an authenticated POST whose categories field is missing,
not an array, or the empty array is answered 400, leaves the store
unchanged, and emits no schedule event — in both preference-API
revisions. -/
theorem c9_empty_categories_rejection (u : String) (body : PostBody) (store : PrefStore)
    (upsertOk inngestOk : Bool) (now tz : Int)
    (hcat : categoriesInvalid body.categories = true) :
    (PrefApi.POST (some u) body store upsertOk inngestOk).1.status = 400 ∧
    (PrefApi.POST (some u) body store upsertOk inngestOk).2.1 = store ∧
    (PrefApi.POST (some u) body store upsertOk inngestOk).2.2 = [] ∧
    (PrefApi2.POST (some u) body store upsertOk inngestOk now tz).1.status = 400 ∧
    (PrefApi2.POST (some u) body store upsertOk inngestOk now tz).2.1 = store ∧
    (PrefApi2.POST (some u) body store upsertOk inngestOk now tz).2.2 = [] := by
  refine ⟨?_, ?_, ?_, ?_, ?_, ?_⟩ <;> simp [PrefApi.POST, PrefApi2.POST, hcat]

theorem c9_witness :
    categoriesInvalid (CategoriesField.arr []) = true ∧
    ((PrefApi.POST (some "user-1") ⟨CategoriesField.arr [], some "weekly",
        some "x@example.com"⟩ [] true true).1.status = 400 ∧
     (PrefApi.POST (some "user-1") ⟨CategoriesField.arr [], some "weekly",
        some "x@example.com"⟩ [] true true).2.1 = [] ∧
     (PrefApi.POST (some "user-1") ⟨CategoriesField.arr [], some "weekly",
        some "x@example.com"⟩ [] true true).2.2 = [] ∧
     (PrefApi2.POST (some "user-1") ⟨CategoriesField.arr [], some "weekly",
        some "x@example.com"⟩ [] true true 0 0).1.status = 400 ∧
     (PrefApi2.POST (some "user-1") ⟨CategoriesField.arr [], some "weekly",
        some "x@example.com"⟩ [] true true 0 0).2.1 = [] ∧
     (PrefApi2.POST (some "user-1") ⟨CategoriesField.arr [], some "weekly",
        some "x@example.com"⟩ [] true true 0 0).2.2 = []) :=
  ⟨by decide,
   c9_empty_categories_rejection "user-1"
     ⟨CategoriesField.arr [], some "weekly", some "x@example.com"⟩ [] true true 0 0
     (by decide)⟩

/-- Claim C5: under valid parameters the cached fetcher returns the
per-topic contributions concatenated in topic order; a topic whose
request fails (429, 5xx, other HTTP error, API error, or exception)
contributes exactly `[]`, while every successfully fetched topic's
processed articles are all present in the aggregate — so one topic's
failure neither aborts nor empties the batch. -/
theorem c5_per_topic_fetch_isolation (cats : List String) (p m : Nat)
    (env : NewsCached.FetchEnv) (cache0 : NewsCached.Cache)
    (hk : env.hasApiKey = true) (hp1 : 1 ≤ p) (hp2 : p ≤ 20)
    (hm1 : 1 ≤ m) (hm2 : m ≤ 5) :
    (∃ c q, NewsCached.fetchArticles cats p m env cache0 =
      .ok ((cats.map (NewsCached.contrib env p cache0)).flatten, c, q)) ∧
    (∀ cat : String, NewsCached.freshHitB env cache0 (cat, p) = false →
      (env.outcomes cat).isFailure = true →
      NewsCached.contrib env p cache0 cat = []) ∧
    (∀ cat ∈ cats, ∀ a ∈ NewsCached.contrib env p cache0 cat,
      a ∈ (cats.map (NewsCached.contrib env p cache0)).flatten) ∧
    (∀ (cat : String) (arts : List RawArticle),
      NewsCached.freshHitB env cache0 (cat, p) = false →
      env.outcomes cat = NewsCached.Outcome.success arts →
      NewsCached.contrib env p cache0 cat = NewsCached.processArticles p arts) := by
  refine ⟨NewsCached.fetchArticles_flatten cats p m env cache0 hk hp1 hp2 hm1 hm2,
          ?_, ?_, ?_⟩
  · intro cat hfr hfail
    exact NewsCached.contrib_of_notFresh_failure hfr hfail
  · intro cat hcat a ha
    exact List.mem_flatten.mpr
      ⟨NewsCached.contrib env p cache0 cat, List.mem_map.mpr ⟨cat, hcat, rfl⟩, ha⟩
  · intro cat arts hfr hs
    exact NewsCached.contrib_of_notFresh_success hfr hs

/-- Claim C7, counterexample: failed requests are not cached, so two
calls for the same `(topic, perTopic)` key one minute apart, whose
first request got an HTTP 500, each issue a network request for that
key — two requests within the five-minute window, contradicting "at
most one". -/
theorem c7_counterexample :
    NewsCached.fetchArticles ["ai"] 5 3
        { hasApiKey := true, outcomes := fun _ => NewsCached.Outcome.serverError 500,
          now := 0 } [] =
      .ok ([], [], ["ai"]) ∧
    NewsCached.fetchArticles ["ai"] 5 3
        { hasApiKey := true, outcomes := fun _ => NewsCached.Outcome.serverError 500,
          now := 60000 } [] =
      .ok ([], [], ["ai"]) ∧
    (60000 : Int) - 0 < NewsCached.CACHE_DURATION :=
  ⟨rfl, rfl, by decide⟩

/-- Claim C7 as amended: when the first call's request for a
`(topic, perTopic)` key succeeds, the result is cached with the call's
timestamp; a second call covering that key within the five-minute
time-to-live issues no network request for it (the cache hit
short-circuits), and a second call after the time-to-live has elapsed
issues a new request.  Failed requests are not cached, so the "at most
one request" bound holds only for a successful first request. -/
theorem c7_cache_ttl (cats1 cats2 : List String) (cat : String) (p m1 m2 : Nat)
    (env1 env2 : NewsCached.FetchEnv) (cache0 : NewsCached.Cache)
    (arts : List RawArticle)
    (hk1 : env1.hasApiKey = true) (hk2 : env2.hasApiKey = true)
    (hp1 : 1 ≤ p) (hp2 : p ≤ 20)
    (hm11 : 1 ≤ m1) (hm12 : m1 ≤ 5) (hm21 : 1 ≤ m2) (hm22 : m2 ≤ 5)
    (hmem1 : cat ∈ cats1) (hmem2 : cat ∈ cats2)
    (hmiss : NewsCached.freshHitB env1 cache0 (cat, p) = false)
    (hs : env1.outcomes cat = NewsCached.Outcome.success arts) :
    ∃ r1 c1 q1, NewsCached.fetchArticles cats1 p m1 env1 cache0 = .ok (r1, c1, q1) ∧
      NewsCached.cacheGet c1 (cat, p) =
        some ⟨NewsCached.processArticles p arts, env1.now⟩ ∧
      (env2.now - env1.now < NewsCached.CACHE_DURATION →
        ∃ r2 c2 q2, NewsCached.fetchArticles cats2 p m2 env2 c1 = .ok (r2, c2, q2) ∧
          cat ∉ q2) ∧
      (NewsCached.CACHE_DURATION ≤ env2.now - env1.now →
        ∃ r2 c2 q2, NewsCached.fetchArticles cats2 p m2 env2 c1 = .ok (r2, c2, q2) ∧
          cat ∈ q2) :=
  NewsCached.fetchArticles_two_calls cats1 cats2 cat p m1 m2 env1 env2 cache0 arts
    hk1 hk2 hp1 hp2 hm11 hm12 hm21 hm22 hmem1 hmem2 hmiss hs

/-- Claim C8: when every topic's processed result is empty, the plain
fetcher substitutes the deterministic fallback article, its result is
never the empty list, and a run wired to that result still completes
and sends exactly one email to the subscriber with an article count of
one. -/
theorem c8_degenerate_empty_result (cats : List String)
    (outcomes : String → FetchOutcome) (isoNow : String)
    (ev : Newsletter.NewsletterEvent) (env : Newsletter.RunEnv) (runId : String)
    (hempty : (cats.map (fun c => News.processCategory (outcomes c))).flatten = [])
    (hfetch : env.fetchResult = News.fetchArticles cats outcomes isoNow)
    (hg : Newsletter.checkUserStatus env.statusQuery = true)
    (hs : env.sendOk = true) :
    News.fetchArticles cats outcomes isoNow = [News.fallbackArticle isoNow] ∧
    (∀ (cats' : List String) (outs' : String → FetchOutcome) (iso' : String),
      News.fetchArticles cats' outs' iso' ≠ []) ∧
    (∃ nl : String, (Newsletter.runScheduledNewsletter ev env runId).result =
      Newsletter.RunResult.completed nl 1 ev.categories true true true runId) ∧
    (Newsletter.runScheduledNewsletter ev env runId).emails =
      [(ev.email, Newsletter.subjectLine ev)] := by
  have hne := Newsletter.generateNewsletter_ne_empty ev env.fetchResult env.dateStr
  have hlen : env.fetchResult.length = 1 := by
    rw [hfetch, News.fetchArticles_of_empty cats outcomes isoNow hempty]
    rfl
  refine ⟨News.fetchArticles_of_empty cats outcomes isoNow hempty,
          fun cats' outs' iso' => News.fetchArticles_ne_nil cats' outs' iso', ?_, ?_⟩
  · refine ⟨Newsletter.generateNewsletter ev env.fetchResult env.dateStr, ?_⟩
    cases ht : ev.isTest.getD false
    · simp [Newsletter.runScheduledNewsletter, hg, hs, hne, ht, hlen]
    · simp [Newsletter.runScheduledNewsletter, hg, hs, hne, ht, hlen]
  · cases ht : ev.isTest.getD false
    · simp [Newsletter.runScheduledNewsletter, hg, hs, hne, ht]
    · simp [Newsletter.runScheduledNewsletter, hg, hs, hne, ht]

theorem c5_witness :
    (∃ c q, NewsCached.fetchArticles ["a", "b"] 5 3
        { hasApiKey := true,
          outcomes := fun cat =>
            if cat = "a" then NewsCached.Outcome.rateLimited
            else NewsCached.Outcome.success [], now := 0 } [] =
      .ok ((["a", "b"].map (NewsCached.contrib
            { hasApiKey := true,
              outcomes := fun cat =>
                if cat = "a" then NewsCached.Outcome.rateLimited
                else NewsCached.Outcome.success [], now := 0 } 5 [])).flatten, c, q)) ∧
    (∀ cat : String, NewsCached.freshHitB
        { hasApiKey := true,
          outcomes := fun cat =>
            if cat = "a" then NewsCached.Outcome.rateLimited
            else NewsCached.Outcome.success [], now := 0 } [] (cat, 5) = false →
      ((if cat = "a" then NewsCached.Outcome.rateLimited
        else NewsCached.Outcome.success []) : NewsCached.Outcome).isFailure = true →
      NewsCached.contrib
        { hasApiKey := true,
          outcomes := fun cat =>
            if cat = "a" then NewsCached.Outcome.rateLimited
            else NewsCached.Outcome.success [], now := 0 } 5 [] cat = []) ∧
    (∀ cat ∈ ["a", "b"], ∀ a ∈ NewsCached.contrib
        { hasApiKey := true,
          outcomes := fun cat =>
            if cat = "a" then NewsCached.Outcome.rateLimited
            else NewsCached.Outcome.success [], now := 0 } 5 [] cat,
      a ∈ (["a", "b"].map (NewsCached.contrib
        { hasApiKey := true,
          outcomes := fun cat =>
            if cat = "a" then NewsCached.Outcome.rateLimited
            else NewsCached.Outcome.success [], now := 0 } 5 [])).flatten) ∧
    (∀ (cat : String) (arts : List RawArticle),
      NewsCached.freshHitB
        { hasApiKey := true,
          outcomes := fun cat =>
            if cat = "a" then NewsCached.Outcome.rateLimited
            else NewsCached.Outcome.success [], now := 0 } [] (cat, 5) = false →
      ((if cat = "a" then NewsCached.Outcome.rateLimited
        else NewsCached.Outcome.success []) : NewsCached.Outcome) =
        NewsCached.Outcome.success arts →
      NewsCached.contrib
        { hasApiKey := true,
          outcomes := fun cat =>
            if cat = "a" then NewsCached.Outcome.rateLimited
            else NewsCached.Outcome.success [], now := 0 } 5 [] cat =
        NewsCached.processArticles 5 arts) :=
  c5_per_topic_fetch_isolation ["a", "b"] 5 3
    { hasApiKey := true,
      outcomes := fun cat =>
        if cat = "a" then NewsCached.Outcome.rateLimited
        else NewsCached.Outcome.success [], now := 0 } []
    rfl (by decide) (by decide) (by decide) (by decide)

theorem c7_witness :
    ∃ r1 c1 q1, NewsCached.fetchArticles ["ai"] 5 3
        { hasApiKey := true, outcomes := fun _ => NewsCached.Outcome.success [],
          now := 0 } [] = .ok (r1, c1, q1) ∧
      NewsCached.cacheGet c1 ("ai", 5) = some ⟨NewsCached.processArticles 5 [], 0⟩ ∧
      ((60000 : Int) - 0 < NewsCached.CACHE_DURATION →
        ∃ r2 c2 q2, NewsCached.fetchArticles ["ai"] 5 3
          { hasApiKey := true, outcomes := fun _ => NewsCached.Outcome.success [],
            now := 60000 } c1 = .ok (r2, c2, q2) ∧ "ai" ∉ q2) ∧
      (NewsCached.CACHE_DURATION ≤ (60000 : Int) - 0 →
        ∃ r2 c2 q2, NewsCached.fetchArticles ["ai"] 5 3
          { hasApiKey := true, outcomes := fun _ => NewsCached.Outcome.success [],
            now := 60000 } c1 = .ok (r2, c2, q2) ∧ "ai" ∈ q2) :=
  c7_cache_ttl ["ai"] ["ai"] "ai" 5 3 3
    { hasApiKey := true, outcomes := fun _ => NewsCached.Outcome.success [], now := 0 }
    { hasApiKey := true, outcomes := fun _ => NewsCached.Outcome.success [], now := 60000 }
    [] [] rfl rfl (by decide) (by decide) (by decide) (by decide) (by decide) (by decide)
    (by decide) (by decide) rfl rfl

theorem c8_witness :
    News.fetchArticles ["ai"] (fun _ => FetchOutcome.httpError 500)
        "2024-01-01T00:00:00.000Z" =
      [News.fallbackArticle "2024-01-01T00:00:00.000Z"] ∧
    (∀ (cats' : List String) (outs' : String → FetchOutcome) (iso' : String),
      News.fetchArticles cats' outs' iso' ≠ []) ∧
    (∃ nl : String, (Newsletter.runScheduledNewsletter
        ⟨"u1", "u1@example.com", ["ai"], some "weekly", none, none⟩
        ⟨Newsletter.QueryResult.ok (some true),
         News.fetchArticles ["ai"] (fun _ => FetchOutcome.httpError 500)
           "2024-01-01T00:00:00.000Z", true, "1/1/2024", 0, 0⟩ "run-1").result =
      Newsletter.RunResult.completed nl 1 ["ai"] true true true "run-1") ∧
    (Newsletter.runScheduledNewsletter
        ⟨"u1", "u1@example.com", ["ai"], some "weekly", none, none⟩
        ⟨Newsletter.QueryResult.ok (some true),
         News.fetchArticles ["ai"] (fun _ => FetchOutcome.httpError 500)
           "2024-01-01T00:00:00.000Z", true, "1/1/2024", 0, 0⟩ "run-1").emails =
      [("u1@example.com", Newsletter.subjectLine
        ⟨"u1", "u1@example.com", ["ai"], some "weekly", none, none⟩)] :=
  c8_degenerate_empty_result ["ai"] (fun _ => FetchOutcome.httpError 500)
    "2024-01-01T00:00:00.000Z"
    ⟨"u1", "u1@example.com", ["ai"], some "weekly", none, none⟩
    ⟨Newsletter.QueryResult.ok (some true),
     News.fetchArticles ["ai"] (fun _ => FetchOutcome.httpError 500)
       "2024-01-01T00:00:00.000Z", true, "1/1/2024", 0, 0⟩ "run-1"
    rfl rfl rfl rfl
